import Mathlib

/-!
Verification of the dialog/dispatch engine of the jarvis telegram bot
(source file src/main_webhook.py), as a shallow embedding in Lean 4.

The embedding mirrors the python source function by function:
mutable module-level dicts become explicit state values that are threaded
through the handlers, network round trips become oracle arguments that
carry the collaborator's observed outcome, and every message sent back to
the user becomes a value of an outcome type.  Python `dict.get(k, d)`
reads become `Option.getD`, truthiness tests on strings become
comparisons with the empty string, and `str.isdigit` / `int(...)` become
the executable helpers below.
-/

set_option maxHeartbeats 1000000

/-- Suggestion records as delivered by the pipeline / contact search:
python dicts with keys `id`, `name`, `company`, every one optional. -/
structure Suggestion where
  sid : Option String
  name : Option String
  company : Option String
  deriving DecidableEq

/-- One queued unresolved contact reference, as stored by
`build_contact_text_prompt` into `pending_contact_creation`:
`{meeting_id, searched_name, suggestions, mode}`. -/
structure PendingLink where
  meeting_id : String
  searched_name : String
  suggestions : List Suggestion
  mode : String
  deriving DecidableEq

/-- A value of the per-user `pending_contact_creation` dict.  The queue
form is written by `build_contact_text_prompt` and updated by
`_advance_to_next_contact`; the legacy form (keys `meeting_id`,
`suggested_name`, optional `mode`, `expires`) is written by
`handle_create_contact` and `handle_correct_contact`. -/
inductive PendingEntry where
  | queue (pending_links : List PendingLink) (current_index : Nat)
  | legacy (meeting_id : String) (suggested_name : String)
      (mode : Option String) (expires : Nat)
  deriving DecidableEq

/-- Python `data.get(\x27pending_links\x27, [])`: the legacy dicts carry no
such key, so the default empty list is returned for them. -/
def PendingEntry.pendingLinks : PendingEntry → List PendingLink
  | .queue links _ => links
  | .legacy _ _ _ _ => []

/-- Python `data.get(\x27current_index\x27, 0)`. -/
def PendingEntry.currentIndex : PendingEntry → Nat
  | .queue _ idx => idx
  | .legacy _ _ _ _ => 0

/-- Payload stored in `pending_contact_actions` for one inline button,
one constructor per action kind (tags "L", "C", "S", "R"). -/
inductive ActionData where
  | linkAction (meeting_id : String) (contact_id : Option String)
      (contact_name : String) (searched_name : String)
  | createAction (meeting_id : String) (searched_name : String)
  | correctAction (meeting_id : String) (searched_name : String)
      (current_contact : Option String)
  | skipAction (meeting_id : String)
  deriving DecidableEq

/-- A callback key `f"{tag}:{counter}"` produced by `_short_key`,
kept in decoded form: the one-letter kind tag and the counter value. -/
abbrev Token := String × Nat

/-- The `pending_contact_actions` dict. -/
abbrev Actions := Token → Option ActionData

/-- The `pending_contact_creation` dict (user id keyed). -/
abbrev Sessions := Nat → Option PendingEntry

/-- The `conversation_history` dict: per user a list of
(role, content, timestamp) entries. -/
abbrev History := Nat → List (String × String × Nat)

/-- Static configuration read from the environment at module load. -/
structure Config where
  allowed_user_ids : List Nat
  audio_pipeline_url : String
  intelligence_service_url : String

/-- The module-level mutable state of src/main_webhook.py. -/
structure BotState where
  pending_contact_actions : Actions
  callback_counter : Nat
  pending_contact_creation : Sessions
  recently_processed_files : List (String × Nat)
  conversation_history : History

/-- Helper `is_authorized`: empty allow-list means no restriction. -/
def isAuthorized (cfg : Config) (u : Nat) : Bool :=
  cfg.allowed_user_ids = [] ∨ u ∈ cfg.allowed_user_ids

/-- Association-list lookup used to model python `k in d` / `d[k]`. -/
def lookupT (k : String) : List (String × Nat) → Option Nat
  | [] => none
  | (k', v) :: rest => if k' = k then some v else lookupT k rest

/-- The eviction pass of `_is_duplicate_file`: drop every entry whose
age exceeds 300 seconds (`now - v > 300`). -/
def evictOld (m : List (String × Nat)) (now : Nat) : List (String × Nat) :=
  m.filter (fun kv => ! decide (300 < now - kv.2))

/-- Model of `_is_duplicate_file(file_unique_id)`: evict old entries,
report whether the id is still present, and record it when it is not. -/
def isDuplicateFile (m : List (String × Nat)) (fid : String) (now : Nat) :
    Bool × List (String × Nat) :=
  let m' := evictOld m now
  if (lookupT fid m').isSome then (true, m')
  else (false, (fid, now) :: m')

/-- Distinct keys, the invariant python dicts provide for free. -/
def keysNodup (m : List (String × Nat)) : Prop :=
  (m.map Prod.fst).Nodup

/-- Dict write `pending_contact_creation[u] = e`. -/
def setSession (s : Sessions) (u : Nat) (e : PendingEntry) : Sessions :=
  fun v => if v = u then some e else s v

/-- Dict removal `pending_contact_creation.pop(u, None)`. -/
def popSession (s : Sessions) (u : Nat) : Sessions :=
  fun v => if v = u then none else s v

/-- Dict write `pending_contact_actions[t] = d`. -/
def setAction (a : Actions) (t : Token) (d : ActionData) : Actions :=
  fun t' => if t' = t then some d else a t'

/-- Dict removal `pending_contact_actions.pop(t, None)`. -/
def popAction (a : Actions) (t : Token) : Actions :=
  fun t' => if t' = t then none else a t'

/-- Model of `_short_key`: bump the module counter and mint the token. -/
def shortKey (tag : String) (counter : Nat) : Token × Nat :=
  ((tag, counter + 1), counter + 1)

/-- Python `enumerate(l, n)`. -/
def numberFrom (n : Nat) : List α → List (Nat × α)
  | [] => []
  | a :: rest => (n, a) :: numberFrom (n + 1) rest

/-- One numbered candidate line: `  j = name` or `  j = name (company)`,
with the python defaults `name = \x27Unknown\x27`, `company = \x27\x27`
and the truthiness test on the company string. -/
def fmtSuggestionLine (j : Nat) (sug : Suggestion) : String :=
  let name := sug.name.getD "Unknown"
  let company := sug.company.getD ""
  if company ≠ "" then
    "  " ++ toString j ++ " = " ++ name ++ " (" ++ company ++ ")"
  else
    "  " ++ toString j ++ " = " ++ name

/-- The numbered candidate list: `enumerate(suggestions[:5], 1)`. -/
def suggestionLines (sugs : List Suggestion) : List String :=
  (numberFrom 1 (sugs.take 5)).map (fun p => fmtSuggestionLine p.1 p.2)

/-- Progress marker of the first prompt: shown only when the queue holds
more than one pending contact. -/
def progressNote (total : Nat) : String :=
  if total > 1 then "(1/" ++ toString total ++ ")" else ""

/-- A `linked_contact` object: `{name, company?}`. -/
structure LinkedContact where
  name : Option String
  company : Option String
  deriving DecidableEq

/-- One element of the pipeline's `contact_matches` array. -/
structure ContactMatch where
  meeting_id : Option String
  searched_name : Option String
  matched : Bool
  linked_contact : Option LinkedContact
  suggestions : List Suggestion
  deriving DecidableEq

/-- Python `match.get(\x27meeting_id\x27) or (meeting_ids[i] if i < len(meeting_ids)
else None)` followed by the `if not meeting_id` truthiness test: `None` and
the empty string collapse to `""`. -/
def effMeetingId (m : ContactMatch) (ids : List String) (i : Nat) : String :=
  let a := m.meeting_id.getD ""
  if a ≠ "" then a else (ids.get? i).getD ""

/-- The prompt line emitted for an already-matched contact. -/
def matchedPromptLine (m : ContactMatch) : String :=
  let searched := m.searched_name.getD "Unknown"
  let linked := m.linked_contact.getD ⟨none, none⟩
  let linked_name := linked.name.getD searched
  let company := linked.company.getD ""
  if company ≠ "" then
    "👤 Linked to: " ++ linked_name ++ " (" ++ company ++ ")"
  else
    "👤 Linked to: " ++ linked_name

/-- The loop of `build_contact_text_prompt`: walk `contact_matches` with
its index, collecting the matched-contact lines and the queue of
unmatched contacts. -/
def collectMatchesAux : List ContactMatch → List String → Nat →
    List String × List PendingLink
  | [], _, _ => ([], [])
  | m :: rest, ids, i =>
    let (ps, ls) := collectMatchesAux rest ids (i + 1)
    let mid := effMeetingId m ids i
    if mid = "" then (ps, ls)
    else if m.matched then (matchedPromptLine m :: ps, ls)
    else (ps, { meeting_id := mid, searched_name := m.searched_name.getD "Unknown",
                suggestions := m.suggestions, mode := "link_or_create" } :: ls)

/-- Lines of the prompt for the first queued contact
(`build_contact_text_prompt`, lines 558-588 of the source). -/
def firstPromptLines (first : PendingLink) (total : Nat) : List String :=
  if first.suggestions.isEmpty then
    [ "❓ Unknown contact " ++ progressNote total ++ ": *" ++ first.searched_name ++ "*",
      "", "Reply with:",
      "  The correct full name (e.g. \x27John Smith\x27)",
      "  Or \x270\x27 to skip" ]
  else
    [ "❓ Unknown contact " ++ progressNote total ++ ": *" ++ first.searched_name ++ "*",
      "", "Reply with:" ] ++ suggestionLines first.suggestions ++
    [ "  0 = Skip", "  Or type the correct full name" ]

/-- The first-contact prompt text. -/
def firstContactPrompt (first : PendingLink) (total : Nat) : String :=
  String.intercalate "\n" (firstPromptLines first total)

/-- Model of `build_contact_text_prompt(contact_matches, meeting_ids,
user_id)`: emits the combined text (or `none`) and queues the unmatched
contacts for the user. -/
def buildContactTextPrompt (contact_matches : List ContactMatch)
    (meeting_ids : List String) (user_id : Nat) (s : Sessions) :
    Option String × Sessions :=
  if contact_matches.isEmpty then (none, s)
  else
    let pair := collectMatchesAux contact_matches meeting_ids 0
    match pair.2 with
    | [] =>
      if pair.1.isEmpty then (none, s)
      else (some (String.intercalate "\n\n" pair.1), s)
    | first :: _ =>
      let s' := setSession s user_id (.queue pair.2 0)
      let prompts := pair.1 ++ [ firstContactPrompt first pair.2.length ]
      (some (String.intercalate "\n\n" prompts), s')

/-- Model of `_get_current_pending_contact(user_id)`: returns the queue
entry at the cursor; an exhausted or legacy-format entry is popped and
`none` is returned. -/
def getCurrentPendingContact (s : Sessions) (u : Nat) :
    Option PendingLink × Sessions :=
  match s u with
  | none => (none, s)
  | some e =>
    let links := e.pendingLinks
    let idx := e.currentIndex
    if links.length ≤ idx then (none, popSession s u)
    else (links.get? idx, s)

/-- Lines of the prompt for the next queued contact
(`_advance_to_next_contact`, lines 629-656; `idx` is the new cursor). -/
def nextPromptLines (c : PendingLink) (idx total : Nat) : List String :=
  if c.suggestions.isEmpty then
    [ "❓ Next contact (" ++ toString (idx + 1) ++ "/" ++ toString total ++ "): *" ++
        c.searched_name ++ "*",
      "", "Reply with:",
      "  The correct full name (e.g. \x27John Smith\x27)",
      "  Or \x270\x27 to skip" ]
  else
    [ "❓ Next contact (" ++ toString (idx + 1) ++ "/" ++ toString total ++ "): *" ++
        c.searched_name ++ "*",
      "", "Reply with:" ] ++ suggestionLines c.suggestions ++
    [ "  0 = Skip", "  Or type the correct full name" ]

/-- The next-contact prompt text. -/
def nextContactPrompt (c : PendingLink) (idx total : Nat) : String :=
  String.intercalate "\n" (nextPromptLines c idx total)

/-- Model of `_advance_to_next_contact(user_id)`: bump the cursor,
delete the entry when the queue is exhausted, otherwise store the new
cursor and return the prompt for the next contact. -/
def advanceToNextContact (s : Sessions) (u : Nat) : Option String × Sessions :=
  match s u with
  | none => (none, s)
  | some e =>
    let links := e.pendingLinks
    let idx := e.currentIndex + 1
    if links.length ≤ idx then (none, popSession s u)
    else
      let s' := setSession s u (.queue links idx)
      match links.get? idx with
      | some c => (some (nextContactPrompt c idx links.length), s')
      | none => (none, s')

/-- Model of `_clear_pending_contacts(user_id)`. -/
def clearPendingContacts (s : Sessions) (u : Nat) : Bool × Sessions :=
  if (s u).isSome then (true, popSession s u) else (false, s)

/-- Model of `cancel_command`: drops any pending contact work and reports
whether there was any. -/
def cancelCommand (s : Sessions) (u : Nat) : Sessions × Bool :=
  if (s u).isSome then (popSession s u, true) else (s, false)

/-- Python `str.strip()` with no argument: drop whitespace from both
ends (structural recursion over the character list so the kernel can
evaluate it). -/
def pyStrip (s : String) : String :=
  String.mk (((s.data.dropWhile Char.isWhitespace).reverse.dropWhile
    Char.isWhitespace).reverse)

/-- Python `str.isdigit()`: non-empty and all digits. -/
def pyIsDigit (s : String) : Bool :=
  !s.data.isEmpty && s.data.all Char.isDigit

/-- Python `int(s)`, evaluated on the digit strings the guard admits. -/
def natOfDigits : List Char → Nat → Nat
  | [], acc => acc
  | c :: rest, acc => natOfDigits rest (acc * 10 + (c.toNat - 48))

/-- Python `int(s)` on a digit string. -/
def pyToNat (s : String) : Nat :=
  natOfDigits s.data 0

/-- Accumulating pass of `pySplitWs`. -/
def splitWsAux : List Char → List Char → List String
  | [], acc => if acc.isEmpty then [] else [String.mk acc.reverse]
  | c :: rest, acc =>
    if c.isWhitespace then
      if acc.isEmpty then splitWsAux rest []
      else String.mk acc.reverse :: splitWsAux rest []
    else splitWsAux rest (c :: acc)

/-- Python `str.split()` with no argument: split on whitespace runs,
dropping empty pieces. -/
def pySplitWs (s : String) : List String :=
  splitWsAux s.data []

/-- Observed outcome of the link-contact PATCH round trip. -/
inductive LinkOutcome where
  | ok (company : Option String)
  | httpFail (text : String)
  | exn (msg : String)
  deriving DecidableEq

/-- Observed outcome of the contact-search GET round trip. -/
inductive SearchOutcome where
  | ok (contacts : List Suggestion)
  | httpFail
  | exn (msg : String)
  deriving DecidableEq

/-- Observed outcome of the contact-create POST round trip. -/
inductive CreateOutcome where
  | ok (contact_name : Option String)
  | httpFail (text : String)
  | exn (msg : String)
  deriving DecidableEq

/-- Observed outcome of the AI-chat POST round trip. -/
inductive ChatOutcome where
  | ok (response : Option String) (tools_used : List String)
  | httpFail
  | timeout
  | exn
  deriving DecidableEq

/-- The contact operations issued against the intelligence service. -/
inductive RemoteCall where
  | linkContact (meeting_id : String) (contact_id : Option String)
  | searchContacts (q : String)
  | createContact (first_name : String) (last_name : Option String)
      (meeting_id : String)
  deriving DecidableEq

/-- One reply sent by `_handle_contact_linking`. -/
inductive DlgMsg where
  | skippedNext (prompt : String)
  | skippedDone
  | linkedNext (linkMsg : String) (prompt : String)
  | linkedDone (linkMsg : String)
  | linkFailed (text : String)
  | invalidSelection (n : Nat)
  | invalidName
  | notConfigured
  | errorText (msg : String)
  | foundExisting (prompt : String)
  | createdNext (msg : String) (prompt : String)
  | createdDone (msg : String)
  | createFailed (text : String)
  deriving DecidableEq

/-- Lines 1072-1077 of the source: replace in place the candidate list
and search name of the reference at the cursor, without moving the
cursor.  (For a legacy entry `get(\x27pending_links\x27, [])` yields a fresh
empty list and the write is lost.) -/
def updateCurrentSuggestions (s : Sessions) (u : Nat)
    (contacts : List Suggestion) (newName : String) : Sessions :=
  match s u with
  | none => s
  | some e =>
    let links := e.pendingLinks
    let idx := e.currentIndex
    if h : idx < links.length then
      let old := links.get ⟨idx, h⟩
      setSession s u (.queue
        (links.set idx { old with suggestions := contacts, searched_name := newName }) idx)
    else s

/-- The re-prompt shown when a typed search term matched existing
contacts (lines 1079-1088). -/
def foundPrompt (typed_name : String) (contacts : List Suggestion) : String :=
  String.intercalate "\n"
    ([ "Found existing contacts matching \x27" ++ typed_name ++ "\x27:", "" ] ++
      suggestionLines contacts ++
      [ "  0 = Create new \x27" ++ typed_name ++ "\x27" ])

/-- Model of `_handle_contact_linking(update, user_id, current_contact)`:
the dialog-input interpreter.  `cur` is the reference at the cursor, and
the three oracle arguments carry the collaborator outcomes that would be
observed if the corresponding call is made. -/
def handleContactLinking (cfg : Config) (sess : Sessions) (u : Nat)
    (cur : PendingLink) (text : String) (linkOut : LinkOutcome)
    (searchOut : SearchOutcome) (createOut : CreateOutcome) :
    Sessions × DlgMsg × List RemoteCall :=
  let typed := pyStrip text
  if typed = "0" then
    let r := advanceToNextContact sess u
    match r.1 with
    | some np => (r.2, .skippedNext np, [])
    | none => (r.2, .skippedDone, [])
  else if pyIsDigit typed && ! cur.suggestions.isEmpty then
    let selection := pyToNat typed
    if 1 ≤ selection ∧ selection ≤ cur.suggestions.length then
      match cur.suggestions.get? (selection - 1) with
      | none => (sess, .errorText "index out of range", [])
      | some sel =>
        let cid := sel.sid
        let cname := sel.name.getD "Unknown"
        if cfg.intelligence_service_url = "" then (sess, .notConfigured, [])
        else
          match linkOut with
          | .ok company =>
            let companyStr := company.getD ""
            let linkMsg := "✅ Linked to: " ++ cname ++
              (if companyStr ≠ "" then " (" ++ companyStr ++ ")" else "")
            let r := advanceToNextContact sess u
            match r.1 with
            | some np => (r.2, .linkedNext linkMsg np, [ .linkContact cur.meeting_id cid ])
            | none => (r.2, .linkedDone linkMsg, [ .linkContact cur.meeting_id cid ])
          | .httpFail t => (sess, .linkFailed t, [ .linkContact cur.meeting_id cid ])
          | .exn msg => (sess, .errorText msg, [ .linkContact cur.meeting_id cid ])
    else (sess, .invalidSelection cur.suggestions.length, [])
  else
    let typed_name := typed
    if typed_name = "" ∨ typed_name.length < 2 then (sess, .invalidName, [])
    else
      let name_parts := pySplitWs typed_name
      let first_name := name_parts.head?.getD typed_name
      let last_name := if name_parts.length > 1
        then some (String.intercalate " " name_parts.tail) else none
      if cfg.intelligence_service_url = "" then (sess, .notConfigured, [])
      else
        match searchOut with
        | .exn msg => (sess, .errorText msg, [ .searchContacts typed_name ])
        | _ =>
          let existing := match searchOut with
            | .ok cs => cs
            | _ => []
          if ! existing.isEmpty then
            let sess' := updateCurrentSuggestions sess u existing typed_name
            (sess', .foundExisting (foundPrompt typed_name existing),
              [ .searchContacts typed_name ])
          else
            match createOut with
            | .ok cn =>
              let contact_name := cn.getD typed_name
              let msg := "✅ Created and linked: " ++ contact_name
              let r := advanceToNextContact sess u
              match r.1 with
              | some np => (r.2, .createdNext msg np,
                  [ .searchContacts typed_name,
                    .createContact first_name last_name cur.meeting_id ])
              | none => (r.2, .createdDone msg,
                  [ .searchContacts typed_name,
                    .createContact first_name last_name cur.meeting_id ])
            | .httpFail t => (sess, .createFailed t,
                [ .searchContacts typed_name,
                  .createContact first_name last_name cur.meeting_id ])
            | .exn msg => (sess, .errorText msg,
                [ .searchContacts typed_name,
                  .createContact first_name last_name cur.meeting_id ])

/-- Model of `_add_to_conversation_history`. -/
def addToConversationHistory (h : History) (u : Nat) (role content : String)
    (now : Nat) : History :=
  fun v =>
    if v = u then
      let l := h u ++ [(role, content, now)]
      if 40 < l.length then l.drop (l.length - 20) else l
    else h v

/-- Model of `_handle_ai_chat`: history is appended only after a
successful round trip; every failure leaves it untouched. -/
def handleAiChat (cfg : Config) (hist : History) (u : Nat)
    (message_text : String) (chat : ChatOutcome) (now : Nat) : History × String :=
  if cfg.intelligence_service_url = "" then
    (hist, "👋 Send me a voice message or audio file to process!\n\nType /help for more info.")
  else
    match chat with
    | .ok resp tools =>
      let ai_response := resp.getD "Sorry, I couldn\x27t process that."
      let h1 := addToConversationHistory hist u "user" message_text now
      let h2 := addToConversationHistory h1 u "assistant" ai_response now
      let finalResp := if tools.isEmpty then ai_response
        else ai_response ++ "\n\n_📊 Queried: " ++ String.intercalate ", " tools ++ "_"
      (h2, finalResp)
    | .httpFail => (hist, "❌ Sorry, I couldn\x27t process that. Try again later.")
    | .timeout => (hist, "⏱️ That query is taking too long. Try a simpler question.")
    | .exn => (hist, "❌ Something went wrong. Please try again.")

/-- Routing decision of `handle_text_message`. -/
inductive TextOutcome where
  | unauthorized
  | dialog (m : DlgMsg)
  | aiChat (reply : String)
  deriving DecidableEq

/-- Model of `handle_text_message`: consult the pending-contact queue
first; only when no current entry is found does the text reach the
AI-chat path. -/
def handleTextMessage (cfg : Config) (sess : Sessions) (hist : History) (u : Nat)
    (text : String) (linkOut : LinkOutcome) (searchOut : SearchOutcome)
    (createOut : CreateOutcome) (chat : ChatOutcome) (now : Nat) :
    Sessions × History × TextOutcome × List RemoteCall :=
  if isAuthorized cfg u = false then (sess, hist, .unauthorized, [])
  else
    let r := getCurrentPendingContact sess u
    match r.1 with
    | some cur =>
      let d := handleContactLinking cfg r.2 u cur text linkOut searchOut createOut
      (d.1, hist, .dialog d.2.1, d.2.2)
    | none =>
      let a := handleAiChat cfg hist u (pyStrip text) chat now
      (r.2, a.1, .aiChat a.2, [])

/-- One reply sent by `handle_callback_query` or its sub-handlers. -/
inductive CbMsg where
  | expired
  | linked (contact_name : String) (company : String)
  | linkFailed (text : String)
  | errorText (msg : String)
  | notConfigured
  | skipped
  | createPrompt (searched_name : String)
  | correctPrompt (current_contact : String)
  | internalError
  | noAction
  deriving DecidableEq

/-- Model of `handle_link_contact`: absent entry means expired and no
call is made; otherwise the PATCH is attempted and the entry is popped
in the `finally` block on every path through the `try`. -/
def handleLinkContact (cfg : Config) (acts : Actions) (tok : Token)
    (linkOut : LinkOutcome) : Actions × CbMsg × List RemoteCall :=
  match acts tok with
  | none => (acts, .expired, [])
  | some a =>
    match a with
    | .linkAction meeting_id contact_id contact_name _ =>
      if cfg.intelligence_service_url = "" then (popAction acts tok, .notConfigured, [])
      else
        match linkOut with
        | .ok company => (popAction acts tok, .linked contact_name (company.getD ""),
            [ .linkContact meeting_id contact_id ])
        | .httpFail t => (popAction acts tok, .linkFailed t,
            [ .linkContact meeting_id contact_id ])
        | .exn msg => (popAction acts tok, .errorText msg,
            [ .linkContact meeting_id contact_id ])
    | _ => (acts, .internalError, [])

/-- Model of `handle_create_contact`: overwrites the user's pending
state with the legacy single-action dict and pops the callback entry. -/
def handleCreateContact (acts : Actions) (sess : Sessions) (u : Nat)
    (tok : Token) (now : Nat) : Actions × Sessions × CbMsg :=
  match acts tok with
  | none => (acts, sess, .expired)
  | some a =>
    match a with
    | .createAction meeting_id searched_name =>
      (popAction acts tok,
        setSession sess u (.legacy meeting_id searched_name none (now + 300)),
        .createPrompt searched_name)
    | _ => (acts, sess, .internalError)

/-- Model of `handle_correct_contact`. -/
def handleCorrectContact (acts : Actions) (sess : Sessions) (u : Nat)
    (tok : Token) (now : Nat) : Actions × Sessions × CbMsg :=
  match acts tok with
  | none => (acts, sess, .expired)
  | some a =>
    match a with
    | .correctAction meeting_id searched_name current_contact =>
      (popAction acts tok,
        setSession sess u (.legacy meeting_id searched_name (some "correct") (now + 300)),
        .correctPrompt (current_contact.getD "Unknown"))
    | _ => (acts, sess, .internalError)

/-- Model of `handle_callback_query`: dispatch on the one-letter kind
tag of the callback key.  The skip branch answers and pops without ever
consulting the stored entry. -/
def handleCallbackQuery (cfg : Config) (acts : Actions) (sess : Sessions)
    (u : Nat) (tok : Token) (linkOut : LinkOutcome) (now : Nat) :
    Actions × Sessions × CbMsg × List RemoteCall :=
  if tok.1 = "L" then
    let r := handleLinkContact cfg acts tok linkOut
    (r.1, sess, r.2.1, r.2.2)
  else if tok.1 = "C" then
    let r := handleCreateContact acts sess u tok now
    (r.1, r.2.1, r.2.2, [])
  else if tok.1 = "S" then
    (popAction acts tok, sess, .skipped, [])
  else if tok.1 = "R" then
    let r := handleCorrectContact acts sess u tok now
    (r.1, r.2.1, r.2.2, [])
  else (acts, sess, .noAction, [])

/-- Inline keyboard rows: display label and callback token per button. -/
abbrev Keyboard := List (List (String × Token))

/-- The per-suggestion link buttons of `build_contact_keyboard`
(`suggestions[:3]`). -/
def linkButtons (meeting_id searched_name : String) :
    List Suggestion → Actions → Nat → List (String × Token) × Actions × Nat
  | [], acts, ctr => ([], acts, ctr)
  | sug :: rest, acts, ctr =>
    let contact_id := sug.sid
    let name := sug.name.getD "Unknown"
    let k := shortKey "L" ctr
    let acts1 := setAction acts k.1 (.linkAction meeting_id contact_id name searched_name)
    let r := linkButtons meeting_id searched_name rest acts1 k.2
    ((name, k.1) :: r.1, r.2.1, r.2.2)

/-- Truncated display name used on the create button. -/
def displayName (searched_name : String) : String :=
  if 15 < searched_name.length then searched_name.take 15 ++ "..." else searched_name

/-- The loop of `build_contact_keyboard`, threading the action registry
and the key counter. -/
def buildKeyboardAux : List ContactMatch → List String → Nat → Actions → Nat →
    Keyboard × Actions × Nat
  | [], _, _, acts, ctr => ([], acts, ctr)
  | m :: rest, ids, i, acts, ctr =>
    let mid := effMeetingId m ids i
    if mid = "" then buildKeyboardAux rest ids (i + 1) acts ctr
    else
      let searched := m.searched_name.getD "Unknown"
      if m.matched then
        let linked := m.linked_contact.getD ⟨none, none⟩
        let linked_name := linked.name.getD searched
        let k := shortKey "R" ctr
        let acts1 := setAction acts k.1 (.correctAction mid searched (some linked_name))
        let r := buildKeyboardAux rest ids (i + 1) acts1 k.2
        ([ ("✏️ Wrong? Correct \x27" ++ linked_name ++ "\x27", k.1) ] :: r.1, r.2.1, r.2.2)
      else if ! m.suggestions.isEmpty then
        let lb := linkButtons mid searched (m.suggestions.take 3) acts ctr
        let ck := shortKey "C" lb.2.2
        let acts1 := setAction lb.2.1 ck.1 (.createAction mid searched)
        let sk := shortKey "S" ck.2
        let acts2 := setAction acts1 sk.1 (.skipAction mid)
        let r := buildKeyboardAux rest ids (i + 1) acts2 sk.2
        (lb.1 :: [ ("➕ Create \x27" ++ displayName searched ++ "\x27", ck.1),
          ("⏭️ Skip", sk.1) ] :: r.1, r.2.1, r.2.2)
      else
        let ck := shortKey "C" ctr
        let acts1 := setAction acts ck.1 (.createAction mid searched)
        let sk := shortKey "S" ck.2
        let acts2 := setAction acts1 sk.1 (.skipAction mid)
        let r := buildKeyboardAux rest ids (i + 1) acts2 sk.2
        ([ ("➕ Create \x27" ++ displayName searched ++ "\x27", ck.1),
          ("⏭️ Skip", sk.1) ] :: r.1, r.2.1, r.2.2)

/-- Model of `build_contact_keyboard`. -/
def buildContactKeyboard (contact_matches : List ContactMatch)
    (meeting_ids : List String) (acts : Actions) (ctr : Nat) :
    Option Keyboard × Actions × Nat :=
  if contact_matches.isEmpty then (none, acts, ctr)
  else
    let r := buildKeyboardAux contact_matches meeting_ids 0 acts ctr
    if r.1.isEmpty then (none, r.2.1, r.2.2) else (some r.1, r.2.1, r.2.2)

/-- The `details` object of a successful fast-path response. -/
structure FastDetails where
  transcript_length : Option Nat
  contact_matches : List ContactMatch
  meeting_ids : List String
  deriving DecidableEq

/-- A parsed fast-path response body. -/
structure FastBody where
  status : Option String
  summary : Option String
  details : Option FastDetails
  deriving DecidableEq

/-- Observed outcome of the fast-path POST: either a response with a
transport status code and parsed body, or an exception / timeout. -/
inductive FastOutcome where
  | resp (status_code : Nat) (body : FastBody)
  | exn (msg : String)
  deriving DecidableEq

/-- Observed outcome of the durable-storage (Google Drive) upload. -/
inductive StorageOutcome where
  | ok
  | exn (msg : String)
  deriving DecidableEq

/-- Python `user.username or user.id` under an f-string. -/
def userHandle (username : Option String) (u : Nat) : String :=
  match username with
  | some s => if s = "" then toString u else s
  | none => toString u

/-- Generated voice filename `voice_{ts}_{handle}.ogg`. -/
def voiceFilename (ts : String) (username : Option String) (u : Nat) : String :=
  "voice_" ++ ts ++ "_" ++ userHandle username u ++ ".ogg"

/-- Extension for audio files: last `/`-component of the MIME type,
`mp3` when absent. -/
def audioExt (mime : Option String) : String :=
  match mime with
  | some m => if m = "" then "mp3" else (m.splitOn "/").getLastD m
  | none => "mp3"

/-- Generated audio filename `audio_{ts}_{handle}.{ext}`. -/
def audioFilename (ts : String) (username : Option String) (u : Nat)
    (mime : Option String) : String :=
  "audio_" ++ ts ++ "_" ++ userHandle username u ++ "." ++ audioExt mime

/-- Reply of `handle_voice`. -/
inductive VoiceResult where
  | unauthorized
  | duplicateDropped
  | processed (mainMsg : String) (contactPrompt : Option String)
  | driveUploaded (filename : String)
  | errorText (msg : String)
  deriving DecidableEq

/-- The main success message of the voice handler. -/
def voiceMainMsg (summary : String) (tlen : Nat) : String :=
  "✅ *Voice memo processed!*\n\n" ++ summary ++ "\n\n📝 Transcript: " ++
    toString tlen ++ " chars"

/-- Whether a fast-path outcome counts as failure: exception or timeout,
transport status other than 200, or semantic status other than success. -/
def fastFails (fast : FastOutcome) : Bool :=
  match fast with
  | .exn _ => true
  | .resp code body => code ≠ 200 || body.status.getD "" ≠ "success"

/-- The Google-Drive fallback shared by the two ingest handlers, with
the storage failure surfaced by the outer exception handler. -/
def voiceFallback (st : BotState) (filename : String) (storage : StorageOutcome)
    (attempts : Nat) : BotState × VoiceResult × Nat :=
  match storage with
  | .ok => (st, .driveUploaded filename, attempts)
  | .exn msg => (st, .errorText msg, attempts)

/-- Model of `handle_voice`.  The final `Nat` counts fast-path attempts.
`downloadOk` stands for the telegram file download inside the outer
`try`; its failure reaches the outer `except` like any other. -/
def handleVoice (cfg : Config) (st : BotState) (u : Nat) (username : Option String)
    (fid : String) (now : Nat) (ts : String) (downloadOk : Bool)
    (fast : FastOutcome) (storage : StorageOutcome) : BotState × VoiceResult × Nat :=
  if isAuthorized cfg u = false then (st, .unauthorized, 0)
  else
    let dup := isDuplicateFile st.recently_processed_files fid now
    let st1 := { st with recently_processed_files := dup.2 }
    if dup.1 then (st1, .duplicateDropped, 0)
    else
      let cl := clearPendingContacts st1.pending_contact_creation u
      let st2 := { st1 with pending_contact_creation := cl.2 }
      if downloadOk = false then (st2, .errorText "download failed", 0)
      else
        let filename := voiceFilename ts username u
        if cfg.audio_pipeline_url ≠ "" then
          match fast with
          | .exn _ => voiceFallback st2 filename storage 1
          | .resp code body =>
            if code = 200 then
              if body.status.getD "" = "success" then
                let summary := body.summary.getD "Processed successfully"
                let details := body.details.getD ⟨none, [], []⟩
                let bp := buildContactTextPrompt details.contact_matches
                  details.meeting_ids u st2.pending_contact_creation
                ({ st2 with pending_contact_creation := bp.2 },
                  .processed (voiceMainMsg summary (details.transcript_length.getD 0)) bp.1, 1)
              else voiceFallback st2 filename storage 1
            else voiceFallback st2 filename storage 1
        else voiceFallback st2 filename storage 0

/-- Reply of `handle_audio`. -/
inductive AudioResult where
  | unauthorized
  | duplicateDropped
  | processed (mainMsg : String) (keyboard : Option Keyboard)
  | driveUploaded (filename : String)
  | errorText (msg : String)
  deriving DecidableEq

/-- The main success message of the audio handler. -/
def audioMainMsg (summary : String) (tlen : Nat) : String :=
  "✅ *Audio processed!*\n\n" ++ summary ++ "\n\n📝 Transcript: " ++
    toString tlen ++ " chars"

/-- The fallback of the audio handler. -/
def audioFallback (st : BotState) (filename : String) (storage : StorageOutcome)
    (attempts : Nat) : BotState × AudioResult × Nat :=
  match storage with
  | .ok => (st, .driveUploaded filename, attempts)
  | .exn msg => (st, .errorText msg, attempts)

/-- Model of `handle_audio`: like the voice handler but renders inline
buttons through the callback registry instead of a text prompt. -/
def handleAudio (cfg : Config) (st : BotState) (u : Nat) (username : Option String)
    (fid : String) (mime : Option String) (now : Nat) (ts : String)
    (downloadOk : Bool) (fast : FastOutcome) (storage : StorageOutcome) :
    BotState × AudioResult × Nat :=
  if isAuthorized cfg u = false then (st, .unauthorized, 0)
  else
    let dup := isDuplicateFile st.recently_processed_files fid now
    let st1 := { st with recently_processed_files := dup.2 }
    if dup.1 then (st1, .duplicateDropped, 0)
    else
      let cl := clearPendingContacts st1.pending_contact_creation u
      let st2 := { st1 with pending_contact_creation := cl.2 }
      if downloadOk = false then (st2, .errorText "download failed", 0)
      else
        let filename := audioFilename ts username u mime
        if cfg.audio_pipeline_url ≠ "" then
          match fast with
          | .exn _ => audioFallback st2 filename storage 1
          | .resp code body =>
            if code = 200 then
              if body.status.getD "" = "success" then
                let summary := body.summary.getD "Processed successfully"
                let details := body.details.getD ⟨none, [], []⟩
                let kb := buildContactKeyboard details.contact_matches
                  details.meeting_ids st2.pending_contact_actions st2.callback_counter
                let st3 := { st2 with pending_contact_actions := kb.2.1, callback_counter := kb.2.2 }
                (st3, .processed (audioMainMsg summary (details.transcript_length.getD 0)) kb.1, 1)
              else audioFallback st2 filename storage 1
            else audioFallback st2 filename storage 1
        else audioFallback st2 filename storage 0

/-- One inbound update handled by the bot application, with the
collaborator outcomes it would observe. -/
inductive Event where
  | voiceMsg (u : Nat) (username : Option String) (fid : String) (now : Nat)
      (ts : String) (downloadOk : Bool) (fast : FastOutcome) (storage : StorageOutcome)
  | audioMsg (u : Nat) (username : Option String) (fid : String) (mime : Option String)
      (now : Nat) (ts : String) (downloadOk : Bool) (fast : FastOutcome)
      (storage : StorageOutcome)
  | textMsg (u : Nat) (text : String) (linkOut : LinkOutcome)
      (searchOut : SearchOutcome) (createOut : CreateOutcome) (chat : ChatOutcome)
      (now : Nat)
  | callbackPress (u : Nat) (tok : Token) (linkOut : LinkOutcome) (now : Nat)
  | cancelCmd (u : Nat)
  | startCmd (u : Nat)
  | helpCmd (u : Nat)
  | locationMsg (u : Nat)

/-- The whole-state transition of one dispatched update: glue of the
individual handler models over the module-level state. -/
def step (cfg : Config) (st : BotState) (e : Event) : BotState :=
  match e with
  | .voiceMsg u un fid now ts dl fast storage =>
    (handleVoice cfg st u un fid now ts dl fast storage).1
  | .audioMsg u un fid mime now ts dl fast storage =>
    (handleAudio cfg st u un fid mime now ts dl fast storage).1
  | .textMsg u text lo so co ch now =>
    let r := handleTextMessage cfg st.pending_contact_creation
      st.conversation_history u text lo so co ch now
    { st with pending_contact_creation := r.1, conversation_history := r.2.1 }
  | .callbackPress u tok lo now =>
    let r := handleCallbackQuery cfg st.pending_contact_actions
      st.pending_contact_creation u tok lo now
    { st with pending_contact_actions := r.1, pending_contact_creation := r.2.1 }
  | .cancelCmd u =>
    { st with pending_contact_creation := (cancelCommand st.pending_contact_creation u).1 }
  | .startCmd _ => st
  | .helpCmd _ => st
  | .locationMsg _ => st

/-- Derived summary used to state claim C2: the pending entry that
`handle_voice` leaves for the sender, a function of the configuration
and the observed fast-path outcome alone (never of the prior state). -/
def voiceNewSession (cfg : Config) (downloadOk : Bool) (fast : FastOutcome) :
    Option PendingEntry :=
  if cfg.audio_pipeline_url ≠ "" ∧ downloadOk = true then
    match fast with
    | .resp code body =>
      if code = 200 ∧ body.status.getD "" = "success" then
        let details := body.details.getD ⟨none, [], []⟩
        let links := (collectMatchesAux details.contact_matches details.meeting_ids 0).2
        if links.isEmpty then none else some (.queue links 0)
      else none
    | .exn _ => none
  else none

/-- Concrete fixture: empty allow-list, no fast path, intelligence
service configured. -/
def cfgIntel : Config :=
  ⟨[], "", "http://intel"⟩

/-- Concrete fixture: empty allow-list, both collaborator urls set. -/
def cfgFull : Config :=
  ⟨[], "http://pipe", "http://intel"⟩

/-- Concrete fixture: no pending sessions. -/
def emptySessions : Sessions :=
  fun _ => none

/-- Concrete fixture: no conversation history. -/
def emptyHistory : History :=
  fun _ => []

/-- Concrete fixture: registry holding one skip action. -/
def sampleActsSkip : Actions :=
  fun t => if t = ("S", 1) then some (.skipAction "m1") else none

/-- Concrete fixture: registry holding one link action. -/
def sampleActsLink : Actions :=
  fun t => if t = ("L", 2) then some (.linkAction "m1" (some "c1") "Jon Lee" "Jon") else none

/-- Concrete fixture: registry holding one create action. -/
def sampleActsCreate : Actions :=
  fun t => if t = ("C", 1) then some (.createAction "m1" "Jon") else none

/-- Concrete fixture: a queued reference with no candidates. -/
def sampleLinkNoSugg : PendingLink :=
  ⟨"m1", "Jon", [], "link_or_create"⟩

/-- Concrete fixture: a queued reference with two candidates. -/
def sampleLinkTwoSugg : PendingLink :=
  ⟨"m1", "Jon", [⟨some "c1", some "Jon Lee", none⟩, ⟨some "c2", some "Jon Ray", some "Acme"⟩],
    "link_or_create"⟩

/-- Concrete fixture: user 7 mid-dialog on a zero-candidate reference. -/
def sessNoSugg : Sessions :=
  fun v => if v = 7 then some (.queue [sampleLinkNoSugg] 0) else none

/-- Concrete fixture: user 7 mid-dialog on a two-candidate reference. -/
def sessTwoSugg : Sessions :=
  fun v => if v = 7 then some (.queue [sampleLinkTwoSugg] 0) else none

/-- Concrete fixture: user 3 mid-dialog, whole bot state. -/
def sampleState : BotState :=
  ⟨fun _ => none, 0, fun v => if v = 3 then some (.queue [sampleLinkNoSugg] 0) else none,
    [("f", 10)], fun _ => []⟩

/-- Concrete fixture: user 7 mid-dialog with two queued references. -/
def sessTwoRefs : Sessions :=
  fun v => if v = 7 then some (.queue [sampleLinkTwoSugg, sampleLinkNoSugg] 0) else none

theorem lookupT_filter_keep (m : List (String × Nat)) (k : String) (v : Nat)
    (p : String × Nat → Bool) (hl : lookupT k m = some v) (hp : p (k, v) = true) :
    lookupT k (m.filter p) = some v := by
  induction m with
  | nil => simp [lookupT] at hl
  | cons kv rest ih =>
    obtain ⟨k', v'⟩ := kv
    by_cases hk : k' = k
    · subst hk
      simp [lookupT] at hl
      subst hl
      simp [List.filter, hp, lookupT]
    · simp [lookupT, hk] at hl
      cases hpk : p (k', v') with
      | true => simp [List.filter, hpk, lookupT, hk, ih hl]
      | false => simp [List.filter, hpk, ih hl]

theorem lookupT_not_mem (rest : List (String × Nat)) (k : String)
    (hkn : k ∉ rest.map Prod.fst) : lookupT k rest = none := by
  induction rest with
  | nil => simp [lookupT]
  | cons kw rw ihr =>
    obtain ⟨k2, v2⟩ := kw
    have hk2 : k2 ≠ k := by
      intro h
      exact hkn (by simp [h])
    have hkn' : k ∉ rw.map Prod.fst := by
      intro h
      exact hkn (by simp [h])
    simp [lookupT, hk2, ihr hkn']

theorem lookupT_filter_evict (m : List (String × Nat)) (k : String) (v : Nat)
    (p : String × Nat → Bool) (hnd : keysNodup m)
    (hl : lookupT k m = some v) (hp : p (k, v) = false) :
    lookupT k (m.filter p) = none := by
  induction m with
  | nil => simp [lookupT] at hl
  | cons kv rest ih =>
    obtain ⟨k', v'⟩ := kv
    have hnd' : keysNodup rest := by
      simpa [keysNodup] using (List.nodup_cons.mp hnd).2
    by_cases hk : k' = k
    · subst hk
      simp [lookupT] at hl
      subst hl
      have hkn : k' ∉ rest.map Prod.fst := by
        simpa [keysNodup] using (List.nodup_cons.mp hnd).1
      have hrest : lookupT k' (rest.filter p) = none := by
        apply lookupT_not_mem
        intro h
        rcases List.mem_map.mp h with ⟨x, hxmem, hx1⟩
        exact hkn (List.mem_map.mpr ⟨x, List.mem_of_mem_filter hxmem, hx1⟩)
      simp only [List.filter, hp]
      exact hrest
    · simp [lookupT, hk] at hl
      cases hpk : p (k', v') with
      | true => simp [List.filter, hpk, lookupT, hk, ih hnd' hl]
      | false => simp [List.filter, hpk, ih hnd' hl]

/-- Claim C5.  Fingerprint cache contract of `_is_duplicate_file`:
a fresh id is recorded at the current time and reported as new; an id
already recorded at `t0` is reported as duplicate while `now - t0 ≤ 300`
and its original timestamp is kept; once `now - t0 > 300` the id is
reported as new again and re-recorded at `now`; and every entry of the
state after any call has age at most 300 seconds. -/
theorem c5_fingerprint_window (m : List (String × Nat)) (fid : String) (now : Nat) :
    (lookupT fid (evictOld m now) = none →
      isDuplicateFile m fid now = (false, (fid, now) :: evictOld m now))
    ∧ (∀ t0, lookupT fid m = some t0 → now - t0 ≤ 300 →
      (isDuplicateFile m fid now).1 = true ∧
      lookupT fid (isDuplicateFile m fid now).2 = some t0)
    ∧ (∀ t0, keysNodup m → lookupT fid m = some t0 → 300 < now - t0 →
      (isDuplicateFile m fid now).1 = false ∧
      lookupT fid (isDuplicateFile m fid now).2 = some now)
    ∧ (∀ e, e ∈ (isDuplicateFile m fid now).2 → now - e.2 ≤ 300) := by
  refine ⟨?_, ?_, ?_, ?_⟩
  · intro h
    simp [isDuplicateFile, h]
  · intro t0 hl hage
    have hkeep : lookupT fid (evictOld m now) = some t0 := by
      apply lookupT_filter_keep m fid t0 _ hl
      simp [Nat.not_lt.mpr hage]
    constructor
    · simp [isDuplicateFile, hkeep]
    · simp [isDuplicateFile, hkeep]
  · intro t0 hnd hl hage
    have hev : lookupT fid (evictOld m now) = none := by
      apply lookupT_filter_evict m fid t0 _ hnd hl
      simp [hage]
    constructor
    · simp [isDuplicateFile, hev]
    · simp [isDuplicateFile, hev, lookupT]
  · intro e he
    simp only [isDuplicateFile] at he
    by_cases hmem : (lookupT fid (evictOld m now)).isSome
    · simp [hmem] at he
      have := List.of_mem_filter he
      simpa using Nat.not_lt.mp (by simpa using this)
    · simp [hmem] at he
      rcases he with he | he
      · simp [he]
      · have := List.of_mem_filter he
        simpa using Nat.not_lt.mp (by simpa using this)

/-- Witness for C5 at concrete inputs: a fresh id, a repeat sighting
35 seconds later, a sighting 350 seconds later on a distinct-key cache,
and the eviction guarantee on a concrete surviving entry. -/
theorem c5_fingerprint_window_witness :
    isDuplicateFile [("g", 10)] "f" 20 = (false, [("f", 20), ("g", 10)])
    ∧ (isDuplicateFile [("f", 10)] "f" 45).1 = true
    ∧ (isDuplicateFile [("f", 10)] "f" 360).1 = false
    ∧ 45 - (("f", (10 : Nat)) : String × Nat).2 ≤ 300 := by
  refine ⟨?_, ?_, ?_, ?_⟩
  · exact (c5_fingerprint_window [("g", 10)] "f" 20).1 (by decide)
  · exact ((c5_fingerprint_window [("f", 10)] "f" 45).2.1 10 (by decide) (by decide)).1
  · exact ((c5_fingerprint_window [("f", 10)] "f" 360).2.2.1 10 (by simp [keysNodup])
      (by decide) (by decide)).1
  · exact (c5_fingerprint_window [("f", 10)] "f" 45).2.2.2 ("f", 10) (by decide)

theorem popAction_absent (acts : Actions) (tok : Token) (ha : acts tok = none) :
    popAction acts tok = acts := by
  funext t'
  by_cases ht : t' = tok
  · rw [popAction, if_pos ht, ht, ha]
  · rw [popAction, if_neg ht]

/-- Counterexample to claim C1 as stated: a SKIP token pressed a second
time is answered with the skip acknowledgement again, not with the
expired notice, even though its entry was consumed by the first press. -/
theorem c1_counterexample :
    (handleCallbackQuery cfgIntel sampleActsSkip emptySessions 5 ("S", 1) (.ok none) 100).1
      ("S", 1) = none
    ∧ (handleCallbackQuery cfgIntel
        (handleCallbackQuery cfgIntel sampleActsSkip emptySessions 5 ("S", 1) (.ok none) 100).1
        emptySessions 5 ("S", 1) (.ok none) 101).2.2.1 = CbMsg.skipped
    ∧ CbMsg.skipped ≠ CbMsg.expired := by
  refine ⟨by decide, by decide, by decide⟩

/-- Claim C1, amended.  First press of a well-registered token of any
kind consumes the entry; a LINK press with the service configured and a
successful round trip performs exactly the link call; once the entry is
absent, a further press performs no contact operation and leaves the
registry and the sessions untouched, answering LINK/CREATE/CORRECT
presses with the expired notice but SKIP presses with the skip
acknowledgement again. -/
theorem c1_at_most_once (cfg : Config) (acts : Actions) (sess : Sessions)
    (u : Nat) (tok : Token) (linkOut : LinkOutcome) (now : Nat) :
    (∀ mid cid cname sn, acts tok = some (.linkAction mid cid cname sn) → tok.1 = "L" →
      (handleCallbackQuery cfg acts sess u tok linkOut now).1 tok = none)
    ∧ (∀ mid sn, acts tok = some (.createAction mid sn) → tok.1 = "C" →
      (handleCallbackQuery cfg acts sess u tok linkOut now).1 tok = none)
    ∧ (∀ mid sn cc, acts tok = some (.correctAction mid sn cc) → tok.1 = "R" →
      (handleCallbackQuery cfg acts sess u tok linkOut now).1 tok = none)
    ∧ (tok.1 = "S" →
      (handleCallbackQuery cfg acts sess u tok linkOut now).1 tok = none)
    ∧ (∀ mid cid cname sn company, acts tok = some (.linkAction mid cid cname sn) →
      tok.1 = "L" → cfg.intelligence_service_url ≠ "" → linkOut = .ok company →
      handleCallbackQuery cfg acts sess u tok linkOut now =
        (popAction acts tok, sess, .linked cname (company.getD ""),
          [ .linkContact mid cid ]))
    ∧ (acts tok = none →
      (handleCallbackQuery cfg acts sess u tok linkOut now).2.2.2 = []
      ∧ (handleCallbackQuery cfg acts sess u tok linkOut now).2.1 = sess
      ∧ (handleCallbackQuery cfg acts sess u tok linkOut now).1 = acts
      ∧ ((tok.1 = "L" ∨ tok.1 = "C" ∨ tok.1 = "R") →
        (handleCallbackQuery cfg acts sess u tok linkOut now).2.2.1 = .expired)
      ∧ (tok.1 = "S" →
        (handleCallbackQuery cfg acts sess u tok linkOut now).2.2.1 = .skipped)) := by
  refine ⟨?_, ?_, ?_, ?_, ?_, ?_⟩
  · intro mid cid cname sn ha htag
    by_cases hurl : cfg.intelligence_service_url = ""
    · simp [handleCallbackQuery, htag, handleLinkContact, ha, hurl, popAction]
    · cases linkOut <;>
        simp [handleCallbackQuery, htag, handleLinkContact, ha, hurl, popAction]
  · intro mid sn ha htag
    simp [handleCallbackQuery, htag, handleCreateContact, ha, popAction]
  · intro mid sn cc ha htag
    simp [handleCallbackQuery, htag, handleCorrectContact, ha, popAction]
  · intro htag
    simp [handleCallbackQuery, htag, popAction]
  · intro mid cid cname sn company ha htag hurl hlo
    subst hlo
    simp [handleCallbackQuery, htag, handleLinkContact, ha, hurl]
  · intro ha
    by_cases hL : tok.1 = "L"
    · simp [handleCallbackQuery, hL, handleLinkContact, ha]
    by_cases hC : tok.1 = "C"
    · simp [handleCallbackQuery, hC, hL, handleCreateContact, ha]
    by_cases hS : tok.1 = "S"
    · simp [handleCallbackQuery, hS, hL, hC, popAction_absent acts tok ha]
    by_cases hR : tok.1 = "R"
    · simp [handleCallbackQuery, hR, hL, hC, hS, handleCorrectContact, ha]
    · simp [handleCallbackQuery, hL, hC, hS, hR]

/-- Witness for C1 at concrete inputs: a link token is consumed by its
first press, and a press on an unregistered link token is answered with
the expired notice without any contact call. -/
theorem c1_at_most_once_witness :
    (handleCallbackQuery cfgIntel sampleActsLink emptySessions 5 ("L", 2) (.ok none) 9).1
      ("L", 2) = none
    ∧ (handleCallbackQuery cfgIntel (fun _ => none) emptySessions 5 ("L", 2)
        (.ok none) 9).2.2.1 = CbMsg.expired
    ∧ (handleCallbackQuery cfgIntel (fun _ => none) emptySessions 5 ("L", 2)
        (.ok none) 9).2.2.2 = [] := by
  refine ⟨?_, ?_, ?_⟩
  · exact (c1_at_most_once cfgIntel sampleActsLink emptySessions 5 ("L", 2)
      (.ok none) 9).1 "m1" (some "c1") "Jon Lee" "Jon" (by decide) rfl
  · exact (((c1_at_most_once cfgIntel (fun _ => none) emptySessions 5 ("L", 2)
      (.ok none) 9).2.2.2.2.2 rfl).2.2.2.1) (Or.inl rfl)
  · exact ((c1_at_most_once cfgIntel (fun _ => none) emptySessions 5 ("L", 2)
      (.ok none) 9).2.2.2.2.2 rfl).1

theorem clearPendingContacts_self (s : Sessions) (u : Nat) :
    (clearPendingContacts s u).2 u = none := by
  by_cases h : (s u).isSome
  · simp [clearPendingContacts, h, popSession]
  · simp [clearPendingContacts, h]
    exact Option.not_isSome_iff_eq_none.mp h

theorem buildContactTextPrompt_self (cm : List ContactMatch) (ids : List String)
    (u : Nat) (s : Sessions) :
    (buildContactTextPrompt cm ids u s).2 u =
      (if (collectMatchesAux cm ids 0).2.isEmpty then s u
        else some (.queue (collectMatchesAux cm ids 0).2 0)) := by
  cases cm with
  | nil => simp [buildContactTextPrompt, collectMatchesAux]
  | cons m rest =>
    simp only [buildContactTextPrompt, List.isEmpty_cons, Bool.false_eq_true, if_false]
    cases hc : (collectMatchesAux (m :: rest) ids 0).2 with
    | nil =>
      simp [hc]
      split <;> rfl
    | cons f tl => simp [hc, setSession]

/-- Claim C2.  Once past the authorization and duplicate checks, an
ingest event leaves the sender's pending session fully determined by the
new event alone: the voice handler leaves exactly `voiceNewSession`
(the queue built from the new contact matches, or nothing), and the
audio handler leaves no session; any prior session is discarded.  The
map type `Sessions` keys at most one entry per user, so the uniqueness
half of the claim is structural. -/
theorem c2_session_replacement (cfg : Config) (st : BotState) (u : Nat)
    (username : Option String) (fid : String) (mime : Option String) (now : Nat)
    (ts : String) (downloadOk : Bool) (fast : FastOutcome) (storage : StorageOutcome)
    (hauth : isAuthorized cfg u = true)
    (hdup : (isDuplicateFile st.recently_processed_files fid now).1 = false) :
    (handleVoice cfg st u username fid now ts downloadOk fast storage).1.pending_contact_creation u
      = voiceNewSession cfg downloadOk fast
    ∧ (handleAudio cfg st u username fid mime now ts downloadOk fast storage).1.pending_contact_creation u
      = none := by
  constructor
  · cases downloadOk with
    | false =>
      cases storage <;>
        simp [handleVoice, hauth, hdup, voiceNewSession, clearPendingContacts_self]
    | true =>
      by_cases hurl : cfg.audio_pipeline_url = ""
      · cases storage <;>
          simp [handleVoice, hauth, hdup, hurl, voiceNewSession, voiceFallback,
            clearPendingContacts_self]
      · cases fast with
        | exn msg =>
          cases storage <;>
            simp [handleVoice, hauth, hdup, hurl, voiceNewSession, voiceFallback,
              clearPendingContacts_self]
        | resp code body =>
          by_cases hcode : code = 200
          · by_cases hst : body.status.getD "" = "success"
            · simp [handleVoice, hauth, hdup, hurl, hcode, hst, voiceNewSession,
                buildContactTextPrompt_self, clearPendingContacts_self]
            · cases storage <;>
                simp [handleVoice, hauth, hdup, hurl, hcode, hst, voiceNewSession,
                  voiceFallback, clearPendingContacts_self]
          · cases storage <;>
              simp [handleVoice, hauth, hdup, hurl, hcode, voiceNewSession,
                voiceFallback, clearPendingContacts_self]
  · cases downloadOk with
    | false =>
      cases storage <;>
        simp [handleAudio, hauth, hdup, clearPendingContacts_self]
    | true =>
      by_cases hurl : cfg.audio_pipeline_url = ""
      · cases storage <;>
          simp [handleAudio, hauth, hdup, hurl, audioFallback, clearPendingContacts_self]
      · cases fast with
        | exn msg =>
          cases storage <;>
            simp [handleAudio, hauth, hdup, hurl, audioFallback, clearPendingContacts_self]
        | resp code body =>
          by_cases hcode : code = 200
          · by_cases hst : body.status.getD "" = "success"
            · simp [handleAudio, hauth, hdup, hurl, hcode, hst, clearPendingContacts_self]
            · cases storage <;>
                simp [handleAudio, hauth, hdup, hurl, hcode, hst, audioFallback,
                  clearPendingContacts_self]
          · cases storage <;>
              simp [handleAudio, hauth, hdup, hurl, hcode, audioFallback,
                clearPendingContacts_self]

/-- Witness for C2 at a concrete input: user 3 has an open session in
`sampleState`; a fresh voice ingest with one unmatched contact replaces
it by the new one-element queue, and a fresh audio ingest leaves none. -/
theorem c2_session_replacement_witness :
    (handleVoice cfgFull sampleState 3 (some "jm") "g" 45 "20260101_000000" true
      (.resp 200 ⟨some "success", some "ok",
        some ⟨some 10, [⟨some "m9", some "Ana", false, none,
          [⟨some "c9", some "Ana Ray", none⟩]⟩], []⟩⟩) .ok).1.pending_contact_creation 3
      = voiceNewSession cfgFull true
        (.resp 200 ⟨some "success", some "ok",
          some ⟨some 10, [⟨some "m9", some "Ana", false, none,
            [⟨some "c9", some "Ana Ray", none⟩]⟩], []⟩⟩)
    ∧ (handleAudio cfgFull sampleState 3 (some "jm") "g" (some "audio/mpeg") 45
        "20260101_000000" true
        (.resp 200 ⟨some "success", some "ok",
          some ⟨some 10, [⟨some "m9", some "Ana", false, none,
            [⟨some "c9", some "Ana Ray", none⟩]⟩], []⟩⟩) .ok).1.pending_contact_creation 3
      = none :=
  c2_session_replacement cfgFull sampleState 3 (some "jm") "g" (some "audio/mpeg") 45
    "20260101_000000" true
    (.resp 200 ⟨some "success", some "ok",
      some ⟨some 10, [⟨some "m9", some "Ana", false, none,
        [⟨some "c9", some "Ana Ray", none⟩]⟩], []⟩⟩) .ok
    (by decide) (by decide)

/-- Claim C10.  In both ingest handlers the duplicate check runs and
returns before the pending-session clear: a duplicate delivery changes
nothing but the fingerprint map (which only undergoes its eviction
pass), and in particular the sender's in-progress session survives. -/
theorem c10_duplicate_preserves_state (cfg : Config) (st : BotState) (u : Nat)
    (username : Option String) (fid : String) (mime : Option String) (now : Nat)
    (ts : String) (downloadOk : Bool) (fast : FastOutcome) (storage : StorageOutcome)
    (hauth : isAuthorized cfg u = true)
    (hdup : (isDuplicateFile st.recently_processed_files fid now).1 = true) :
    handleVoice cfg st u username fid now ts downloadOk fast storage =
      ({ st with recently_processed_files :=
        (isDuplicateFile st.recently_processed_files fid now).2 }, .duplicateDropped, 0)
    ∧ handleAudio cfg st u username fid mime now ts downloadOk fast storage =
      ({ st with recently_processed_files :=
        (isDuplicateFile st.recently_processed_files fid now).2 }, .duplicateDropped, 0) := by
  constructor
  · simp [handleVoice, hauth, hdup]
  · simp [handleAudio, hauth, hdup]

/-- Witness for C10 at a concrete input: the file id "f" is already in
`sampleState`'s fingerprint map, so redelivering it 35 seconds later is
dropped and user 3's open session survives untouched. -/
theorem c10_duplicate_preserves_state_witness :
    handleVoice cfgFull sampleState 3 (some "jm") "f" 45 "20260101_000000" true
      (.exn "boom") .ok =
      ({ sampleState with recently_processed_files :=
        (isDuplicateFile sampleState.recently_processed_files "f" 45).2 },
        .duplicateDropped, 0)
    ∧ handleAudio cfgFull sampleState 3 (some "jm") "f" (some "audio/mpeg") 45
      "20260101_000000" true (.exn "boom") .ok =
      ({ sampleState with recently_processed_files :=
        (isDuplicateFile sampleState.recently_processed_files "f" 45).2 },
        .duplicateDropped, 0) :=
  c10_duplicate_preserves_state cfgFull sampleState 3 (some "jm") "f" (some "audio/mpeg")
    45 "20260101_000000" true (.exn "boom") .ok (by decide) (by decide)

/-- Claim C6.  Ingest orchestration: the fast path is attempted only
when the pipeline url is configured and never more than once; once the
auth, duplicate and download stages pass, any single fast-path failure
(non-200, semantic non-success, or exception/timeout) leads straight to
the storage fallback; and a failing storage write surfaces as an
explicit error reply rather than being swallowed. -/
theorem c6_fast_path_orchestration (cfg : Config) (st : BotState) (u : Nat)
    (username : Option String) (fid : String) (mime : Option String) (now : Nat)
    (ts : String) (downloadOk : Bool) (fast : FastOutcome) (storage : StorageOutcome) :
    (cfg.audio_pipeline_url = "" →
      (handleVoice cfg st u username fid now ts downloadOk fast storage).2.2 = 0
      ∧ (handleAudio cfg st u username fid mime now ts downloadOk fast storage).2.2 = 0)
    ∧ (handleVoice cfg st u username fid now ts downloadOk fast storage).2.2 ≤ 1
    ∧ (handleAudio cfg st u username fid mime now ts downloadOk fast storage).2.2 ≤ 1
    ∧ (isAuthorized cfg u = true →
      (isDuplicateFile st.recently_processed_files fid now).1 = false →
      downloadOk = true → cfg.audio_pipeline_url ≠ "" → fastFails fast = true →
      (handleVoice cfg st u username fid now ts downloadOk fast storage).2.2 = 1
      ∧ (handleAudio cfg st u username fid mime now ts downloadOk fast storage).2.2 = 1
      ∧ (handleVoice cfg st u username fid now ts downloadOk fast storage).2.1 =
        (match storage with
          | .ok => .driveUploaded (voiceFilename ts username u)
          | .exn msg => .errorText msg)
      ∧ (handleAudio cfg st u username fid mime now ts downloadOk fast storage).2.1 =
        (match storage with
          | .ok => .driveUploaded (audioFilename ts username u mime)
          | .exn msg => .errorText msg))
    ∧ (∀ msg, isAuthorized cfg u = true →
      (isDuplicateFile st.recently_processed_files fid now).1 = false →
      downloadOk = true →
      (cfg.audio_pipeline_url = "" ∨ fastFails fast = true) → storage = .exn msg →
      (handleVoice cfg st u username fid now ts downloadOk fast storage).2.1 = .errorText msg
      ∧ (handleAudio cfg st u username fid mime now ts downloadOk fast storage).2.1 =
        .errorText msg) := by
  refine ⟨?_, ?_, ?_, ?_, ?_⟩
  · intro hurl
    constructor
    · simp only [handleVoice]
      split
      · rfl
      · split
        · rfl
        · split
          · rfl
          · simp [hurl, voiceFallback]
            cases storage <;> simp
    · simp only [handleAudio]
      split
      · rfl
      · split
        · rfl
        · split
          · rfl
          · simp [hurl, audioFallback]
            cases storage <;> simp
  · simp only [handleVoice]
    split
    · simp
    · split
      · simp
      · split
        · simp
        · split
          · cases fast with
            | exn msg => cases storage <;> simp [voiceFallback]
            | resp code body =>
              by_cases hcode : code = 200
              · by_cases hst : body.status.getD "" = "success"
                · simp [hcode, hst]
                · cases storage <;> simp [hcode, hst, voiceFallback]
              · cases storage <;> simp [hcode, voiceFallback]
          · cases storage <;> simp [voiceFallback]
  · simp only [handleAudio]
    split
    · simp
    · split
      · simp
      · split
        · simp
        · split
          · cases fast with
            | exn msg => cases storage <;> simp [audioFallback]
            | resp code body =>
              by_cases hcode : code = 200
              · by_cases hst : body.status.getD "" = "success"
                · simp [hcode, hst]
                · cases storage <;> simp [hcode, hst, audioFallback]
              · cases storage <;> simp [hcode, audioFallback]
          · cases storage <;> simp [audioFallback]
  · intro hauth hdup hdl hurl hff
    subst hdl
    cases fast with
    | exn msg =>
      cases storage <;>
        simp [handleVoice, handleAudio, hauth, hdup, hurl, voiceFallback, audioFallback]
    | resp code body =>
      by_cases hcode : code = 200
      · by_cases hst : body.status.getD "" = "success"
        · exfalso
          simp [fastFails, hcode, hst] at hff
        · cases storage <;>
            simp [handleVoice, handleAudio, hauth, hdup, hurl, hcode, hst,
              voiceFallback, audioFallback]
      · cases storage <;>
          simp [handleVoice, handleAudio, hauth, hdup, hurl, hcode,
            voiceFallback, audioFallback]
  · intro msg hauth hdup hdl hor hs
    subst hdl
    subst hs
    cases hor with
    | inl hurl =>
      simp [handleVoice, handleAudio, hauth, hdup, hurl, voiceFallback, audioFallback]
    | inr hff =>
      by_cases hurl : cfg.audio_pipeline_url = ""
      · simp [handleVoice, handleAudio, hauth, hdup, hurl, voiceFallback, audioFallback]
      · cases fast with
        | exn m =>
          simp [handleVoice, handleAudio, hauth, hdup, hurl, voiceFallback, audioFallback]
        | resp code body =>
          by_cases hcode : code = 200
          · by_cases hst : body.status.getD "" = "success"
            · exfalso
              simp [fastFails, hcode, hst] at hff
            · simp [handleVoice, handleAudio, hauth, hdup, hurl, hcode, hst,
                voiceFallback, audioFallback]
          · simp [handleVoice, handleAudio, hauth, hdup, hurl, hcode,
              voiceFallback, audioFallback]

/-- Witness for C6 at concrete inputs: with no pipeline configured the
fast path is not attempted; a concrete semantic failure triggers exactly
one fast attempt followed by the fallback upload; and a failing storage
write surfaces its message. -/
theorem c6_fast_path_orchestration_witness :
    (handleVoice cfgIntel sampleState 3 (some "jm") "g" 45 "ts" true (.exn "boom") .ok).2.2 = 0
    ∧ (handleVoice cfgFull sampleState 3 (some "jm") "g" 45 "ts" true
      (.resp 200 ⟨some "error", none, none⟩) .ok).2.2 = 1
    ∧ (handleVoice cfgFull sampleState 3 (some "jm") "g" 45 "ts" true
      (.resp 200 ⟨some "error", none, none⟩) .ok).2.1 =
        .driveUploaded (voiceFilename "ts" (some "jm") 3)
    ∧ (handleVoice cfgFull sampleState 3 (some "jm") "g" 45 "ts" true
      (.resp 500 ⟨none, none, none⟩) (.exn "disk full")).2.1 = .errorText "disk full" := by
  refine ⟨?_, ?_, ?_, ?_⟩
  · exact ((c6_fast_path_orchestration cfgIntel sampleState 3 (some "jm") "g" none 45
      "ts" true (.exn "boom") .ok).1 rfl).1
  · exact ((c6_fast_path_orchestration cfgFull sampleState 3 (some "jm") "g" none 45
      "ts" true (.resp 200 ⟨some "error", none, none⟩) .ok).2.2.2.1 (by decide) (by decide)
      rfl (by decide) (by decide)).1
  · exact ((c6_fast_path_orchestration cfgFull sampleState 3 (some "jm") "g" none 45
      "ts" true (.resp 200 ⟨some "error", none, none⟩) .ok).2.2.2.1 (by decide) (by decide)
      rfl (by decide) (by decide)).2.2.1
  · exact ((c6_fast_path_orchestration cfgFull sampleState 3 (some "jm") "g" none 45
      "ts" true (.resp 500 ⟨none, none, none⟩) (.exn "disk full")).2.2.2.2 "disk full"
      (by decide) (by decide) rfl (Or.inr (by decide)) rfl).1

theorem updateCurrentSuggestions_currentIndex (s : Sessions) (u : Nat)
    (cs : List Suggestion) (nm : String) (e : PendingEntry) (he : s u = some e) :
    ∃ e', updateCurrentSuggestions s u cs nm u = some e'
      ∧ e'.currentIndex = e.currentIndex := by
  unfold updateCurrentSuggestions
  rw [he]
  by_cases h : e.currentIndex < e.pendingLinks.length
  · simp only [dif_pos h, setSession, if_pos rfl]
    exact ⟨_, rfl, rfl⟩
  · simp only [dif_neg h]
    exact ⟨e, he, rfl⟩

/-- Counterexample to claim C3 as stated: on a reference with 0
candidates the numeric string "12" is not rejected; it falls through to
the free-text path, triggers a remote search, and (searching empty,
create succeeding) creates a contact and advances the cursor past the
end, deleting the session. -/
theorem c3_counterexample :
    (handleContactLinking cfgIntel sessNoSugg 7 sampleLinkNoSugg "12" (.ok none)
      (.ok []) (.ok (some "Xavier"))).2.1 = DlgMsg.createdDone "✅ Created and linked: Xavier"
    ∧ (handleContactLinking cfgIntel sessNoSugg 7 sampleLinkNoSugg "12" (.ok none)
      (.ok []) (.ok (some "Xavier"))).2.2 =
        [ .searchContacts "12", .createContact "12" none "m1" ]
    ∧ (handleContactLinking cfgIntel sessNoSugg 7 sampleLinkNoSugg "12" (.ok none)
      (.ok []) (.ok (some "Xavier"))).1 7 = none := by
  refine ⟨by decide, by decide, ?_⟩
  rfl

/-- Claim C3, amended.  Dialog input priority: the skip token "0"
always skips and advances; when the current reference has at least one
candidate, a digit string in range links the selected candidate and
advances (service configured, link call succeeding), and a digit string
out of range draws the invalid-selection reply without advancing; any
other input of length < 2 — including digit strings when the reference
has no candidates — draws the name-validation reply without advancing.
(Digit strings of length ≥ 2 on a zero-candidate reference are treated
as search terms; see C4.) -/
theorem c3_input_grammar (cfg : Config) (sess : Sessions) (u : Nat)
    (cur : PendingLink) (text : String) (linkOut : LinkOutcome)
    (searchOut : SearchOutcome) (createOut : CreateOutcome) :
    (pyStrip text = "0" →
      handleContactLinking cfg sess u cur text linkOut searchOut createOut =
        ((advanceToNextContact sess u).2,
          (match (advanceToNextContact sess u).1 with
            | some np => .skippedNext np
            | none => .skippedDone), []))
    ∧ (∀ sel company, pyStrip text ≠ "0" → pyIsDigit (pyStrip text) = true →
      cur.suggestions.isEmpty = false →
      1 ≤ pyToNat (pyStrip text) → pyToNat (pyStrip text) ≤ cur.suggestions.length →
      cur.suggestions.get? (pyToNat (pyStrip text) - 1) = some sel →
      cfg.intelligence_service_url ≠ "" → linkOut = .ok company →
      (handleContactLinking cfg sess u cur text linkOut searchOut createOut).1 =
        (advanceToNextContact sess u).2
      ∧ (handleContactLinking cfg sess u cur text linkOut searchOut createOut).2.2 =
        [ .linkContact cur.meeting_id sel.sid ])
    ∧ (pyStrip text ≠ "0" → pyIsDigit (pyStrip text) = true →
      cur.suggestions.isEmpty = false →
      ¬(1 ≤ pyToNat (pyStrip text) ∧ pyToNat (pyStrip text) ≤ cur.suggestions.length) →
      handleContactLinking cfg sess u cur text linkOut searchOut createOut =
        (sess, .invalidSelection cur.suggestions.length, []))
    ∧ (pyStrip text ≠ "0" →
      (pyIsDigit (pyStrip text) = false ∨ cur.suggestions.isEmpty = true) →
      (pyStrip text).length < 2 →
      handleContactLinking cfg sess u cur text linkOut searchOut createOut =
        (sess, .invalidName, [])) := by
  refine ⟨?_, ?_, ?_, ?_⟩
  · intro h0
    simp only [handleContactLinking, h0, if_pos rfl]
    simp only [if_true]
    cases hadv : (advanceToNextContact sess u).1 <;> simp [hadv]
  · intro sel company h0 hd he h1 h2 hsel hurl hlo
    subst hlo
    simp only [handleContactLinking, if_neg h0, hd, he, Bool.not_false, Bool.and_self,
      if_pos rfl, if_pos (And.intro h1 h2), hsel, if_neg hurl]
    cases hadv : (advanceToNextContact sess u).1 <;> simp [hadv]
  · intro h0 hd he hn
    simp only [handleContactLinking, if_neg h0, hd, he, Bool.not_false, Bool.and_self,
      if_pos rfl, if_neg hn]
    simp only [if_true]
  · intro h0 hnum hlen
    have hcond : (pyIsDigit (pyStrip text) && !cur.suggestions.isEmpty) = false := by
      cases hnum with
      | inl h => simp [h]
      | inr h => simp [h]
    simp only [handleContactLinking, if_neg h0, hcond, Bool.false_eq_true, if_false]
    simp [hlen]

/-- Witness for C3 at concrete inputs, on a reference with 2 candidates:
"0" skips and advances, "1" links the first candidate and advances
(spec example), "3" is rejected as out of range without advancing, and
"x" is rejected as an invalid name without advancing. -/
theorem c3_input_grammar_witness :
    handleContactLinking cfgIntel sessTwoSugg 7 sampleLinkTwoSugg "0" (.ok none)
      (.ok []) (.ok none) =
      ((advanceToNextContact sessTwoSugg 7).2,
        (match (advanceToNextContact sessTwoSugg 7).1 with
          | some np => .skippedNext np
          | none => .skippedDone), [])
    ∧ (handleContactLinking cfgIntel sessTwoSugg 7 sampleLinkTwoSugg "1" (.ok none)
      (.ok []) (.ok none)).1 = (advanceToNextContact sessTwoSugg 7).2
    ∧ (handleContactLinking cfgIntel sessTwoSugg 7 sampleLinkTwoSugg "1" (.ok none)
      (.ok []) (.ok none)).2.2 = [ .linkContact "m1" (some "c1") ]
    ∧ handleContactLinking cfgIntel sessTwoSugg 7 sampleLinkTwoSugg "3" (.ok none)
      (.ok []) (.ok none) = (sessTwoSugg, .invalidSelection 2, [])
    ∧ handleContactLinking cfgIntel sessTwoSugg 7 sampleLinkTwoSugg "x" (.ok none)
      (.ok []) (.ok none) = (sessTwoSugg, .invalidName, []) := by
  refine ⟨?_, ?_, ?_, ?_, ?_⟩
  · exact (c3_input_grammar cfgIntel sessTwoSugg 7 sampleLinkTwoSugg "0" (.ok none)
      (.ok []) (.ok none)).1 (by decide)
  · exact ((c3_input_grammar cfgIntel sessTwoSugg 7 sampleLinkTwoSugg "1" (.ok none)
      (.ok []) (.ok none)).2.1 ⟨some "c1", some "Jon Lee", none⟩ none (by decide)
      (by decide) (by decide) (by decide) (by decide) (by decide) (by decide) rfl).1
  · exact ((c3_input_grammar cfgIntel sessTwoSugg 7 sampleLinkTwoSugg "1" (.ok none)
      (.ok []) (.ok none)).2.1 ⟨some "c1", some "Jon Lee", none⟩ none (by decide)
      (by decide) (by decide) (by decide) (by decide) (by decide) (by decide) rfl).2
  · exact (c3_input_grammar cfgIntel sessTwoSugg 7 sampleLinkTwoSugg "3" (.ok none)
      (.ok []) (.ok none)).2.2.1 (by decide) (by decide) (by decide) (by decide)
  · exact (c3_input_grammar cfgIntel sessTwoSugg 7 sampleLinkTwoSugg "x" (.ok none)
      (.ok []) (.ok none)).2.2.2 (by decide) (Or.inl (by decide)) (by decide)

/-- Counterexample to claim C4 as stated: "99" has length 2, is not the
skip token and is not a valid numeric selection for a reference with 2
candidates, yet no remote search is triggered — the handler answers
with the out-of-range rejection and leaves everything unchanged. -/
theorem c4_counterexample :
    handleContactLinking cfgIntel sessTwoSugg 7 sampleLinkTwoSugg "99" (.ok none)
      (.ok [⟨some "c3", some "Nina", none⟩]) (.ok none) =
      (sessTwoSugg, DlgMsg.invalidSelection 2, []) := by
  rfl

/-- Claim C4, amended.  A text of length ≥ 2 that is not the skip token
and not an all-digit string while candidates exist triggers the remote
search (service configured): a search returning candidates replaces the
current reference's candidate list and search name in place — the
cursor not advancing — and re-prompts; a search returning none leads to
create-and-link against the current reference's record and advances the
cursor. -/
theorem c4_search_term_flow (cfg : Config) (sess : Sessions) (u : Nat)
    (cur : PendingLink) (text : String) (linkOut : LinkOutcome)
    (searchOut : SearchOutcome) (createOut : CreateOutcome)
    (h0 : pyStrip text ≠ "0")
    (hnum : pyIsDigit (pyStrip text) = false ∨ cur.suggestions.isEmpty = true)
    (hlen : 2 ≤ (pyStrip text).length)
    (hurl : cfg.intelligence_service_url ≠ "") :
    (∀ cs, searchOut = .ok cs → cs.isEmpty = false →
      handleContactLinking cfg sess u cur text linkOut searchOut createOut =
        (updateCurrentSuggestions sess u cs (pyStrip text),
          .foundExisting (foundPrompt (pyStrip text) cs),
          [ .searchContacts (pyStrip text) ])
      ∧ (∀ e, sess u = some e → ∃ e',
          updateCurrentSuggestions sess u cs (pyStrip text) u = some e'
          ∧ e'.currentIndex = e.currentIndex))
    ∧ (∀ cn, searchOut = .ok [] → createOut = .ok cn →
      (handleContactLinking cfg sess u cur text linkOut searchOut createOut).1 =
        (advanceToNextContact sess u).2
      ∧ (handleContactLinking cfg sess u cur text linkOut searchOut createOut).2.2 =
        [ .searchContacts (pyStrip text),
          .createContact ((pySplitWs (pyStrip text)).head?.getD (pyStrip text))
            (if (pySplitWs (pyStrip text)).length > 1
              then some (String.intercalate " " (pySplitWs (pyStrip text)).tail)
              else none)
            cur.meeting_id ]) := by
  have hne : ¬(pyStrip text = "") := by
    intro h
    rw [h] at hlen
    simp at hlen
  have hcond : (pyIsDigit (pyStrip text) && !cur.suggestions.isEmpty) = false := by
    cases hnum with
    | inl h => simp [h]
    | inr h => simp [h]
  have hlen2 : ¬((pyStrip text).length < 2) := Nat.not_lt.mpr hlen
  constructor
  · intro cs hso hcs
    subst hso
    constructor
    · simp only [handleContactLinking, if_neg h0, hcond, Bool.false_eq_true, if_false,
        if_neg hurl, hcs]
      simp [hne, hlen2]
    · intro e he
      exact updateCurrentSuggestions_currentIndex sess u cs (pyStrip text) e he
  · intro cn hso hco
    subst hso
    subst hco
    constructor
    · simp only [handleContactLinking, if_neg h0, hcond, Bool.false_eq_true, if_false,
        if_neg hurl]
      simp only [hne, hlen2, or_self, if_false, false_or, ite_false]
      cases hadv : (advanceToNextContact sess u).1 <;> simp [hadv, hne, hlen2]
    · simp only [handleContactLinking, if_neg h0, hcond, Bool.false_eq_true, if_false,
        if_neg hurl]
      cases hadv : (advanceToNextContact sess u).1 <;> simp [hadv, hne, hlen2]

/-- Witness for C4 at concrete inputs: "Jo" (length 2) on a
zero-candidate reference searches; with one hit the candidates are
replaced in place and the cursor stays, with no hit a contact is
created against meeting m1 and the cursor advances (deleting the
one-item session). -/
theorem c4_search_term_flow_witness :
    handleContactLinking cfgIntel sessNoSugg 7 sampleLinkNoSugg "Jo" (.ok none)
      (.ok [⟨some "c3", some "Jo Vega", none⟩]) (.ok none) =
      (updateCurrentSuggestions sessNoSugg 7 [⟨some "c3", some "Jo Vega", none⟩] "Jo",
        .foundExisting (foundPrompt "Jo" [⟨some "c3", some "Jo Vega", none⟩]),
        [ .searchContacts "Jo" ])
    ∧ (handleContactLinking cfgIntel sessNoSugg 7 sampleLinkNoSugg "Jo" (.ok none)
      (.ok []) (.ok none)).1 = (advanceToNextContact sessNoSugg 7).2
    ∧ (handleContactLinking cfgIntel sessNoSugg 7 sampleLinkNoSugg "Jo" (.ok none)
      (.ok []) (.ok none)).2.2 = [ .searchContacts "Jo", .createContact "Jo" none "m1" ] := by
  refine ⟨?_, ?_, ?_⟩
  · exact ((c4_search_term_flow cfgIntel sessNoSugg 7 sampleLinkNoSugg "Jo" (.ok none)
      (.ok [⟨some "c3", some "Jo Vega", none⟩]) (.ok none) (by decide)
      (Or.inr (by decide)) (by decide) (by decide)).1
      [⟨some "c3", some "Jo Vega", none⟩] rfl (by decide)).1
  · exact ((c4_search_term_flow cfgIntel sessNoSugg 7 sampleLinkNoSugg "Jo" (.ok none)
      (.ok []) (.ok none) (by decide) (Or.inr (by decide)) (by decide) (by decide)).2
      none rfl rfl).1
  · exact ((c4_search_term_flow cfgIntel sessNoSugg 7 sampleLinkNoSugg "Jo" (.ok none)
      (.ok []) (.ok none) (by decide) (Or.inr (by decide)) (by decide) (by decide)).2
      none rfl rfl).2

/-- Claim C7: the code bug evaluated at its failing input.  Pressing a
CREATE button stores the legacy entry for user 5; the user then types
the requested name, but the router pops that entry (its
`pending_links` default is empty) and hands the name to the AI-chat
path instead of the pending contact work. -/
theorem c7_create_button_text_goes_to_chat :
    (handleCallbackQuery cfgIntel sampleActsCreate emptySessions 5 ("C", 1) (.ok none)
      1000).2.1 5 = some (.legacy "m1" "Jon" none 1300)
    ∧ (handleTextMessage cfgIntel
        (handleCallbackQuery cfgIntel sampleActsCreate emptySessions 5 ("C", 1) (.ok none)
          1000).2.1
        emptyHistory 5 "Jasi Mueller" (.ok none) (.ok []) (.ok none) .httpFail
        2000).2.2.1 =
      TextOutcome.aiChat "❌ Sorry, I couldn\x27t process that. Try again later."
    ∧ (handleTextMessage cfgIntel
        (handleCallbackQuery cfgIntel sampleActsCreate emptySessions 5 ("C", 1) (.ok none)
          1000).2.1
        emptyHistory 5 "Jasi Mueller" (.ok none) (.ok []) (.ok none) .httpFail
        2000).1 5 = none := by
  refine ⟨by decide, by decide, by decide⟩

theorem numberFrom_length (n : Nat) (l : List α) :
    (numberFrom n l).length = l.length := by
  induction l generalizing n with
  | nil => rfl
  | cons a rest ih => simp [numberFrom, ih]

theorem numberFrom_get? (n : Nat) (l : List α) (j : Nat) :
    (numberFrom n l).get? j = (l.get? j).map (fun a => (n + j, a)) := by
  induction l generalizing n j with
  | nil => simp [numberFrom]
  | cons a rest ih =>
    cases j with
    | zero => simp [numberFrom]
    | succ j' =>
      simp only [numberFrom, List.get?_cons_succ, ih (n + 1) j']
      have : n + 1 + j' = n + (j' + 1) := by omega
      rw [this]

/-- Counterexample to claim C9 as stated: the prompt for a reference
with zero candidates carries neither a numbered list nor the literal
`0 = Skip` line — it invites the full name first and offers
`Or \x270\x27 to skip` instead. -/
theorem c9_counterexample :
    (buildContactTextPrompt [⟨some "m1", some "Jon", false, none, []⟩] [] 7
      emptySessions).1 =
      some ("❓ Unknown contact : *Jon*\n\nReply with:\n  The correct full name (e.g. \x27John Smith\x27)\n  Or \x270\x27 to skip")
    ∧ ((firstPromptLines sampleLinkNoSugg 1).contains "  0 = Skip") = false := by
  refine ⟨by decide, by decide⟩

/-- Claim C9, amended.  For references with at least one candidate both
prompt renderers emit exactly: a header naming the searched term, with
a progress marker exactly when more than one reference is queued (the
advance prompt only ever fires with ≥ 2 references queued); a numbered
list of at most 5 candidates with the affiliation in parentheses when
present; the literal `0 = Skip` line; and the free-text invitation.
References with zero candidates get the alternate prompt shown in the
counterexample. -/
theorem c9_prompt_format (c : PendingLink) (total : Nat) :
    (c.suggestions.isEmpty = false →
      firstPromptLines c total =
        [ "❓ Unknown contact " ++ progressNote total ++ ": *" ++ c.searched_name ++ "*",
          "", "Reply with:" ] ++ suggestionLines c.suggestions ++
        [ "  0 = Skip", "  Or type the correct full name" ])
    ∧ (c.suggestions.isEmpty = true →
      firstPromptLines c total =
        [ "❓ Unknown contact " ++ progressNote total ++ ": *" ++ c.searched_name ++ "*",
          "", "Reply with:",
          "  The correct full name (e.g. \x27John Smith\x27)",
          "  Or \x270\x27 to skip" ])
    ∧ progressNote 1 = ""
    ∧ (1 < total → progressNote total = "(1/" ++ toString total ++ ")")
    ∧ (∀ sugs : List Suggestion, (suggestionLines sugs).length = min 5 sugs.length)
    ∧ (∀ sugs : List Suggestion, ∀ j sug, (sugs.take 5).get? j = some sug →
      (suggestionLines sugs).get? j = some (fmtSuggestionLine (j + 1) sug))
    ∧ (∀ sug : Suggestion, sug.company.getD "" ≠ "" → ∀ j,
      fmtSuggestionLine j sug =
        "  " ++ toString j ++ " = " ++ sug.name.getD "Unknown" ++ " (" ++
          sug.company.getD "" ++ ")")
    ∧ (∀ s u p, (advanceToNextContact s u).1 = some p →
      ∃ e, s u = some e ∧ 2 ≤ e.pendingLinks.length)
    ∧ (c.suggestions.isEmpty = false → ∀ idx tot2,
      nextPromptLines c idx tot2 =
        [ "❓ Next contact (" ++ toString (idx + 1) ++ "/" ++ toString tot2 ++ "): *" ++
            c.searched_name ++ "*",
          "", "Reply with:" ] ++ suggestionLines c.suggestions ++
        [ "  0 = Skip", "  Or type the correct full name" ]) := by
  refine ⟨?_, ?_, rfl, ?_, ?_, ?_, ?_, ?_, ?_⟩
  · intro h
    simp [firstPromptLines, h]
  · intro h
    simp [firstPromptLines, h]
  · intro h
    simp [progressNote, h]
  · intro sugs
    simp [suggestionLines, numberFrom_length, List.length_take]
  · intro sugs j sug hget
    simp only [suggestionLines, List.get?_map, numberFrom_get?, hget, Option.map_some']
    rw [Nat.add_comm]
  · intro sug hc j
    simp [fmtSuggestionLine, hc]
  · intro s u p hadv
    unfold advanceToNextContact at hadv
    cases hsu : s u with
    | none =>
      rw [hsu] at hadv
      simp at hadv
    | some e =>
      rw [hsu] at hadv
      refine ⟨e, rfl, ?_⟩
      by_cases hlen : e.pendingLinks.length ≤ e.currentIndex + 1
      · simp [hlen] at hadv
      · omega
  · intro h idx tot2
    simp [nextPromptLines, h]

/-- Witness for C9 at concrete inputs: the two-candidate first prompt
of a two-reference queue, the truncation bound on a concrete list, and
the fact that the advance prompt only fires with two or more queued
references. -/
theorem c9_prompt_format_witness :
    firstPromptLines sampleLinkTwoSugg 2 =
      [ "❓ Unknown contact " ++ progressNote 2 ++ ": *Jon*", "", "Reply with:" ] ++
        suggestionLines sampleLinkTwoSugg.suggestions ++
      [ "  0 = Skip", "  Or type the correct full name" ]
    ∧ progressNote 2 = "(1/2)"
    ∧ (suggestionLines sampleLinkTwoSugg.suggestions).length =
        min 5 sampleLinkTwoSugg.suggestions.length
    ∧ (∃ e, sessTwoRefs 7 = some e ∧ 2 ≤ e.pendingLinks.length) := by
  refine ⟨?_, ?_, ?_, ?_⟩
  · exact (c9_prompt_format sampleLinkTwoSugg 2).1 (by decide)
  · exact (c9_prompt_format sampleLinkTwoSugg 2).2.2.2.1 (by decide)
  · exact (c9_prompt_format sampleLinkTwoSugg 2).2.2.2.2.1 sampleLinkTwoSugg.suggestions
  · exact (c9_prompt_format sampleLinkTwoSugg 2).2.2.2.2.2.2.2.1 sessTwoRefs 7
      (nextContactPrompt sampleLinkNoSugg 1 2) rfl

theorem popSession_other (s : Sessions) (w v : Nat) (h : v ≠ w) :
    popSession s w v = s v := by
  simp [popSession, h]

theorem setSession_other (s : Sessions) (w : Nat) (e : PendingEntry) (v : Nat)
    (h : v ≠ w) : setSession s w e v = s v := by
  simp [setSession, h]

theorem clearPendingContacts_other (s : Sessions) (w v : Nat) (h : v ≠ w) :
    (clearPendingContacts s w).2 v = s v := by
  by_cases hs : (s w).isSome <;> simp [clearPendingContacts, hs, popSession_other s w v h]

theorem getCurrentPendingContact_snd_other (s : Sessions) (w v : Nat) (h : v ≠ w) :
    (getCurrentPendingContact s w).2 v = s v := by
  unfold getCurrentPendingContact
  cases hsw : s w with
  | none => rfl
  | some e =>
    by_cases hlen : e.pendingLinks.length ≤ e.currentIndex
    · simp [hlen, popSession_other s w v h]
    · simp [hlen]

theorem advanceToNextContact_snd_other (s : Sessions) (w v : Nat) (h : v ≠ w) :
    (advanceToNextContact s w).2 v = s v := by
  have hs := fun e' => setSession_other s w e' v h
  unfold advanceToNextContact
  cases hsw : s w with
  | none => rfl
  | some e =>
    by_cases hlen : e.pendingLinks.length ≤ e.currentIndex + 1
    · simp [hlen, popSession_other s w v h]
    · simp [hlen]
      split <;> simp [hs]

theorem updateCurrentSuggestions_other (s : Sessions) (w : Nat)
    (cs : List Suggestion) (nm : String) (v : Nat) (h : v ≠ w) :
    updateCurrentSuggestions s w cs nm v = s v := by
  unfold updateCurrentSuggestions
  cases hsw : s w with
  | none => rfl
  | some e =>
    by_cases hlt : e.currentIndex < e.pendingLinks.length
    · simp [hlt, setSession_other s w _ v h]
    · simp [hlt]

theorem buildContactTextPrompt_other (cm : List ContactMatch) (ids : List String)
    (w : Nat) (s : Sessions) (v : Nat) (h : v ≠ w) :
    (buildContactTextPrompt cm ids w s).2 v = s v := by
  cases cm with
  | nil => rfl
  | cons m rest =>
    simp only [buildContactTextPrompt, List.isEmpty_cons, Bool.false_eq_true, if_false]
    cases hc : (collectMatchesAux (m :: rest) ids 0).2 with
    | nil =>
      simp only [hc]
      split <;> rfl
    | cons f tl => simp [hc, setSession_other s w _ v h]

theorem handleContactLinking_sessions_cases (cfg : Config) (s : Sessions) (w : Nat)
    (cur : PendingLink) (text : String) (lo : LinkOutcome) (so : SearchOutcome)
    (co : CreateOutcome) :
    (handleContactLinking cfg s w cur text lo so co).1 = s
    ∨ (handleContactLinking cfg s w cur text lo so co).1 = (advanceToNextContact s w).2
    ∨ ∃ cs nm, (handleContactLinking cfg s w cur text lo so co).1 =
        updateCurrentSuggestions s w cs nm := by
  simp only [handleContactLinking]
  repeat' split
  all_goals first
    | exact Or.inl rfl
    | exact Or.inr (Or.inl rfl)
    | exact Or.inr (Or.inr ⟨_, _, rfl⟩)

theorem handleContactLinking_sessions_other (cfg : Config) (s : Sessions) (w : Nat)
    (cur : PendingLink) (text : String) (lo : LinkOutcome) (so : SearchOutcome)
    (co : CreateOutcome) (v : Nat) (h : v ≠ w) :
    (handleContactLinking cfg s w cur text lo so co).1 v = s v := by
  rcases handleContactLinking_sessions_cases cfg s w cur text lo so co with hc | hc | ⟨cs, nm, hc⟩
  · rw [hc]
  · rw [hc]
    exact advanceToNextContact_snd_other s w v h
  · rw [hc]
    exact updateCurrentSuggestions_other s w cs nm v h

theorem handleTextMessage_sessions_other (cfg : Config) (s : Sessions) (hist : History)
    (w : Nat) (text : String) (lo : LinkOutcome) (so : SearchOutcome)
    (co : CreateOutcome) (ch : ChatOutcome) (now : Nat) (v : Nat) (h : v ≠ w) :
    (handleTextMessage cfg s hist w text lo so co ch now).1 v = s v := by
  simp only [handleTextMessage]
  split
  · rfl
  · split
    · rw [handleContactLinking_sessions_other _ _ _ _ _ _ _ _ v h]
      exact getCurrentPendingContact_snd_other s w v h
    · exact getCurrentPendingContact_snd_other s w v h

theorem handleVoice_sessions_cases (cfg : Config) (st : BotState) (w : Nat)
    (username : Option String) (fid : String) (now : Nat) (ts : String)
    (dl : Bool) (fast : FastOutcome) (storage : StorageOutcome) :
    (handleVoice cfg st w username fid now ts dl fast storage).1.pending_contact_creation =
      st.pending_contact_creation
    ∨ (handleVoice cfg st w username fid now ts dl fast storage).1.pending_contact_creation =
      (clearPendingContacts st.pending_contact_creation w).2
    ∨ ∃ cm ids, (handleVoice cfg st w username fid now ts dl fast storage).1.pending_contact_creation =
      (buildContactTextPrompt cm ids w (clearPendingContacts st.pending_contact_creation w).2).2 := by
  simp only [handleVoice, voiceFallback]
  repeat' split
  all_goals first
    | exact Or.inl rfl
    | exact Or.inr (Or.inl rfl)
    | exact Or.inr (Or.inr ⟨_, _, rfl⟩)

theorem handleAudio_sessions_cases (cfg : Config) (st : BotState) (w : Nat)
    (username : Option String) (fid : String) (mime : Option String) (now : Nat)
    (ts : String) (dl : Bool) (fast : FastOutcome) (storage : StorageOutcome) :
    (handleAudio cfg st w username fid mime now ts dl fast storage).1.pending_contact_creation =
      st.pending_contact_creation
    ∨ (handleAudio cfg st w username fid mime now ts dl fast storage).1.pending_contact_creation =
      (clearPendingContacts st.pending_contact_creation w).2 := by
  simp only [handleAudio, audioFallback]
  repeat' split
  all_goals first
    | exact Or.inl rfl
    | exact Or.inr rfl

theorem handleCallbackQuery_sessions_cases (cfg : Config) (acts : Actions)
    (sess : Sessions) (w : Nat) (tok : Token) (lo : LinkOutcome) (now : Nat) :
    (handleCallbackQuery cfg acts sess w tok lo now).2.1 = sess
    ∨ ((tok.1 = "C" ∨ tok.1 = "R")
      ∧ ∃ e, (handleCallbackQuery cfg acts sess w tok lo now).2.1 = setSession sess w e) := by
  simp only [handleCallbackQuery, handleLinkContact, handleCreateContact,
    handleCorrectContact]
  repeat' split
  all_goals first
    | exact Or.inl rfl
    | exact Or.inr ⟨Or.inl (by assumption), _, rfl⟩
    | exact Or.inr ⟨Or.inr (by assumption), _, rfl⟩

/-- Counterexample to claim C8 as stated: the `/cancel` command deletes
user 3's open session, an operation that is neither a new ingest event
nor queue exhaustion. -/
theorem c8_counterexample :
    sampleState.pending_contact_creation 3 = some (.queue [sampleLinkNoSugg] 0)
    ∧ (step cfgFull sampleState (.cancelCmd 3)).pending_contact_creation 3 = none := by
  refine ⟨by decide, by decide⟩

/-- Claim C8, amended.  A user's pending session changes only through
that user's own events, and only through a voice or audio ingest, a
dialog text message (whose resolution may exhaust the queue), the
`/cancel` command, or a create/correct button press (which overwrites
the queue with legacy single-action state); `/start`, `/help`, location
updates, link/skip button presses and other users' events never touch
it.  No session is removed by mere time passage: the session left by a
text message does not depend on the clock at all, and the presence of
the session left by a button press does not either. -/
theorem c8_session_termination (cfg : Config) (st : BotState) (e : Event) (u : Nat) :
    ((step cfg st e).pending_contact_creation u ≠ st.pending_contact_creation u →
      (∃ username fid now ts dl fast storage,
        e = .voiceMsg u username fid now ts dl fast storage)
      ∨ (∃ username fid mime now ts dl fast storage,
        e = .audioMsg u username fid mime now ts dl fast storage)
      ∨ (∃ text lo so co ch now, e = .textMsg u text lo so co ch now)
      ∨ (∃ tok lo now, e = .callbackPress u tok lo now ∧ (tok.1 = "C" ∨ tok.1 = "R"))
      ∨ e = .cancelCmd u)
    ∧ (∀ text lo so co ch t1 t2,
      (step cfg st (.textMsg u text lo so co ch t1)).pending_contact_creation =
      (step cfg st (.textMsg u text lo so co ch t2)).pending_contact_creation)
    ∧ (∀ tok lo t1 t2,
      ((step cfg st (.callbackPress u tok lo t1)).pending_contact_creation u).isNone =
      ((step cfg st (.callbackPress u tok lo t2)).pending_contact_creation u).isNone) := by
  refine ⟨?_, ?_, ?_⟩
  · intro hne
    cases e with
    | voiceMsg w un fid now ts dl fast storage =>
      by_cases hw : u = w
      · subst hw
        exact Or.inl ⟨un, fid, now, ts, dl, fast, storage, rfl⟩
      · exfalso
        apply hne
        rcases handleVoice_sessions_cases cfg st w un fid now ts dl fast storage with
          hc | hc | ⟨cm, ids, hc⟩
        · simp only [step, hc]
        · simp only [step, hc]
          exact clearPendingContacts_other _ w u hw
        · simp only [step, hc]
          rw [buildContactTextPrompt_other cm ids w _ u hw]
          exact clearPendingContacts_other _ w u hw
    | audioMsg w un fid mime now ts dl fast storage =>
      by_cases hw : u = w
      · subst hw
        exact Or.inr (Or.inl ⟨un, fid, mime, now, ts, dl, fast, storage, rfl⟩)
      · exfalso
        apply hne
        rcases handleAudio_sessions_cases cfg st w un fid mime now ts dl fast storage with
          hc | hc
        · simp only [step, hc]
        · simp only [step, hc]
          exact clearPendingContacts_other _ w u hw
    | textMsg w text lo so co ch now =>
      by_cases hw : u = w
      · subst hw
        exact Or.inr (Or.inr (Or.inl ⟨text, lo, so, co, ch, now, rfl⟩))
      · exfalso
        apply hne
        simp only [step]
        exact handleTextMessage_sessions_other cfg _ _ w text lo so co ch now u hw
    | callbackPress w tok lo now =>
      rcases handleCallbackQuery_sessions_cases cfg st.pending_contact_actions
        st.pending_contact_creation w tok lo now with hc | ⟨htag, e', hc⟩
      · exfalso
        apply hne
        simp only [step, hc]
      · by_cases hw : u = w
        · subst hw
          exact Or.inr (Or.inr (Or.inr (Or.inl ⟨tok, lo, now, rfl, htag⟩)))
        · exfalso
          apply hne
          simp only [step, hc]
          exact setSession_other _ w e' u hw
    | cancelCmd w =>
      by_cases hw : u = w
      · subst hw
        exact Or.inr (Or.inr (Or.inr (Or.inr rfl)))
      · exfalso
        apply hne
        simp only [step, cancelCommand]
        by_cases hs : (st.pending_contact_creation w).isSome <;>
          simp [hs, popSession_other _ w u hw]
    | startCmd w =>
      exact absurd rfl hne
    | helpCmd w =>
      exact absurd rfl hne
    | locationMsg w =>
      exact absurd rfl hne
  · intro text lo so co ch t1 t2
    simp only [step, handleTextMessage]
    split
    · rfl
    · split <;> rfl
  · intro tok lo t1 t2
    by_cases hL : tok.1 = "L"
    · simp [step, handleCallbackQuery, hL]
    by_cases hC : tok.1 = "C"
    · cases hact : st.pending_contact_actions tok with
      | none => simp [step, handleCallbackQuery, hL, hC, handleCreateContact, hact]
      | some a =>
        cases a <;>
          simp [step, handleCallbackQuery, hL, hC, handleCreateContact, hact, setSession]
    by_cases hS : tok.1 = "S"
    · simp [step, handleCallbackQuery, hL, hC, hS]
    by_cases hR : tok.1 = "R"
    · cases hact : st.pending_contact_actions tok with
      | none => simp [step, handleCallbackQuery, hL, hC, hS, hR, handleCorrectContact, hact]
      | some a =>
        cases a <;>
          simp [step, handleCallbackQuery, hL, hC, hS, hR, handleCorrectContact, hact,
            setSession]
    · simp [step, handleCallbackQuery, hL, hC, hS, hR]

/-- Witness for C8 at a concrete input: deleting user 3's session via
`/cancel` is classified among the permitted terminating events, and a
concrete text-message step leaves the same sessions at two different
clock readings. -/
theorem c8_session_termination_witness :
    ((∃ username fid now ts dl fast storage,
        (Event.cancelCmd 3) = .voiceMsg 3 username fid now ts dl fast storage)
      ∨ (∃ username fid mime now ts dl fast storage,
        (Event.cancelCmd 3) = .audioMsg 3 username fid mime now ts dl fast storage)
      ∨ (∃ text lo so co ch now, (Event.cancelCmd 3) = .textMsg 3 text lo so co ch now)
      ∨ (∃ tok lo now, (Event.cancelCmd 3) = .callbackPress 3 tok lo now
          ∧ (tok.1 = "C" ∨ tok.1 = "R"))
      ∨ (Event.cancelCmd 3) = .cancelCmd 3)
    ∧ (step cfgFull sampleState (.textMsg 3 "0" (.ok none) (.ok []) (.ok none) .httpFail
        11)).pending_contact_creation =
      (step cfgFull sampleState (.textMsg 3 "0" (.ok none) (.ok []) (.ok none) .httpFail
        99)).pending_contact_creation := by
  constructor
  · exact (c8_session_termination cfgFull sampleState (.cancelCmd 3) 3).1 (by decide)
  · exact (c8_session_termination cfgFull sampleState (.cancelCmd 3) 3).2.1 "0"
      (.ok none) (.ok []) (.ok none) .httpFail 11 99
